import Mathlib

/-
Verification of the loan-management backend (FastAPI + SQLAlchemy).

Shallow embedding conventions:
* Monetary values (Float columns in the source) are modelled as exact
  rationals; the claims under study are statements of exact arithmetic.
* Dates (datetime.date) are modelled as integers counting days, matching
  Python date ordinals: date.toordinal(), where ordinal 1 (0001-01-01) is a
  Monday, and timedelta(days = n) is addition of n.  Datetimes that are only
  stored (completed_at, cleared_date, payment_date) are modelled at day
  granularity, which is enough for every claim considered here.
* Each database table is a list of rows; the session-plus-commit discipline
  of the handlers is modelled by threading a session state through the
  handler and returning the committed state: a handler returns the pair of
  the database as committed (the input database when the request was rolled
  back by an HTTPException before any commit) and the response or error.
* scalar_one_or_none is modelled faithfully: it raises MultipleResultsFound
  when the query matches two or more rows, which surfaces as an unhandled
  exception (HTTP 500), not as an HTTPException.
* Row mutations are persisted keyed by the column the row was looked up
  with: loans and installments by primary key id, arrears rows inside the
  overdue-sync service by loan_id (a UNIQUE column, and the preceding
  scalar_one_or_none has already ensured at most one matching row).
* created_at audit columns, the PDF receipt side effect (explicitly
  best-effort in the source) and authentication (every endpoint considered
  requires a valid session; it does not affect the claim logic) are omitted.
-/

namespace LoanApp

/-- Loan status enum from app/models.py (class LoanStatus). -/
inductive LoanStatus where
  | ACTIVE
  | COMPLETED
  | OVERDUE
  | ARREARS
deriving Repr, DecidableEq, BEq

instance : LawfulBEq LoanStatus :=
  ⟨fun {a b} h => by cases a <;> cases b <;> first | rfl | exact Bool.noConfusion h,
   fun {a} => by cases a <;> rfl⟩

/-- String value of a status, as serialized by status.value in responses. -/
def LoanStatus.value : LoanStatus → String
  | .ACTIVE => "ACTIVE"
  | .COMPLETED => "COMPLETED"
  | .OVERDUE => "OVERDUE"
  | .ARREARS => "ARREARS"

/-- Customer row (app/models.py class Customer). -/
structure Customer where
  id : Nat
  name : String
  id_number : String
  phone : String
deriving Repr, DecidableEq

/-- Guarantor row (app/models.py class Guarantor). -/
structure Guarantor where
  id : Nat
  name : String
  id_number : String
  phone : String
  location : Option String
  relationship : Option String
deriving Repr, DecidableEq

/-- Loan row (app/models.py class Loan).  total_amount and remaining_amount
are Float columns; remaining_amount is nullable.  start_date and due_date
are non-nullable Date columns. -/
structure Loan where
  id : Nat
  customer_id : String
  guarantor_id : Option Nat
  amount : ℚ
  interest_rate : ℚ
  total_amount : ℚ
  remaining_amount : Option ℚ
  start_date : ℤ
  due_date : ℤ
  status : LoanStatus
  completed_at : Option ℤ
deriving Repr, DecidableEq

/-- Installment row (app/models.py class Installment). -/
structure Installment where
  id : Nat
  loan_id : Nat
  amount : ℚ
  payment_date : ℤ
deriving Repr, DecidableEq

/-- Arrears row (app/models.py class Arrears).  loan_id carries a UNIQUE
constraint; customer_id is resolved defensively and can be NULL in the row
built by the overdue-sync service. -/
structure Arrears where
  id : Nat
  loan_id : Nat
  customer_id : Option Nat
  original_amount : ℚ
  remaining_amount : ℚ
  arrears_date : ℤ
  is_cleared : Bool
  cleared_date : Option ℤ
deriving Repr, DecidableEq

/-- The database: one list of rows per table. -/
structure DB where
  customers : List Customer
  guarantors : List Guarantor
  loans : List Loan
  installments : List Installment
  arrears : List Arrears
deriving Repr, DecidableEq

/-- Errors surfaced by a handler: an HTTPException with a status code and
detail string, or an unhandled Python exception (HTTP 500). -/
inductive ApiError where
  | http : Nat → String → ApiError
  | pyError : String → ApiError
deriving Repr, DecidableEq

/-- Decidable equality of handler results, used by the concrete
counterexample and witness statements. -/
instance {e a : Type} [DecidableEq e] [DecidableEq a] : DecidableEq (Except e a) := fun x y =>
  match x, y with
  | Except.error u, Except.error v =>
    if h : u = v then isTrue (congrArg Except.error h)
    else isFalse (fun hc => h (Except.error.inj hc))
  | Except.error _, Except.ok _ => isFalse (fun hc => Except.noConfusion hc)
  | Except.ok _, Except.error _ => isFalse (fun hc => Except.noConfusion hc)
  | Except.ok u, Except.ok v =>
    if h : u = v then isTrue (congrArg Except.ok h)
    else isFalse (fun hc => h (Except.ok.inj hc))

/-- Model of SQLAlchemy scalar_one_or_none over the rows matched by a
query: none for no row, the row if unique, and MultipleResultsFound
(an unhandled exception) for two or more rows. -/
def scalarOneOrNone {α : Type} : List α → Except ApiError (Option α)
  | [] => Except.ok none
  | [a] => Except.ok (some a)
  | _ => Except.error (ApiError.pyError ("Multiple rows were found when one or none was required"))

/-- Next autoincrement id for a table, modelled as max existing id + 1. -/
def nextId (ids : List Nat) : Nat := ids.foldr max 0 + 1

/-- Commit of a mutated loan object: the row with the loan primary key is
replaced. -/
def updateLoan (db : DB) (l : Loan) : DB :=
  { db with loans := db.loans.map (fun x => if x.id == l.id then l else x) }

/-- Commit of a mutated arrears object that was looked up by primary key. -/
def updateArrearsById (db : DB) (a : Arrears) : DB :=
  { db with arrears := db.arrears.map (fun x => if x.id == a.id then a else x) }

/-- Keyword arguments accepted by Loan.__init__ (app/models.py lines 72-92).
A field is none when the keyword is absent.  amount is required: every
creation site in the repository passes it, and without it the non-nullable
total_amount column would stay unset and the INSERT could not succeed. -/
structure LoanKwargs where
  customer_id : String
  guarantor_id : Option Nat
  amount : ℚ
  interest_rate : Option ℚ
  start_date : Option ℤ
  due_date : Option ℤ
  remaining_amount : Option ℚ
deriving Repr, DecidableEq

/-- Loan.__init__ (app/models.py lines 72-92) combined with the column
defaults applied at INSERT (interest_rate 20.0, status ACTIVE).
interest = amount * (kwargs.get of interest_rate with default 20.0) / 100;
total_amount = amount + interest; remaining_amount is initialized to
total_amount when not supplied.  due_date: when start_date is a keyword it
is unconditionally set to start_date + 30 days; otherwise a supplied
(truthy, and date objects are always truthy) due_date keyword is kept, and
with neither keyword it is utcnow + 30 days.  The start_date column default
in the source evaluates a datetime captured at import time; no claim
depends on a loan created without start_date, and it is modelled as the
current date. -/
def mkLoan (id : Nat) (kw : LoanKwargs) (todayUtc : ℤ) : Loan :=
  let rate := kw.interest_rate.getD 20
  let interest := kw.amount * (rate / 100)
  let total := kw.amount + interest
  let remaining : Option ℚ :=
    match kw.remaining_amount with
    | none => some total
    | some r => some r
  let due : ℤ :=
    match kw.start_date with
    | some s => s + 30
    | none =>
      match kw.due_date with
      | none => todayUtc + 30
      | some d => d
  { id := id
    customer_id := kw.customer_id
    guarantor_id := kw.guarantor_id
    amount := kw.amount
    interest_rate := rate
    total_amount := total
    remaining_amount := remaining
    start_date := kw.start_date.getD todayUtc
    due_date := due
    status := LoanStatus.ACTIVE
    completed_at := none }

/-- app/services/loan_service.py def _remaining_amount: the loan total when
remaining_amount is NULL, the stored remaining amount otherwise. -/
def remainingAmount (l : Loan) : ℚ := l.remaining_amount.getD l.total_amount

/-- app/services/loan_service.py def _actual_paid. -/
def actualPaid (l : Loan) : ℚ := l.total_amount - remainingAmount l

/-- Python max of two values (used for the max(0, x) clamps). -/
def pyMax (a b : ℚ) : ℚ := if a ≤ b then b else a

/-- Python abs. -/
def pyAbs (q : ℚ) : ℚ := if q < 0 then -q else q

/-- Floor of a rational (the numerator divided by the denominator with
Euclidean division, which floors for a positive divisor). -/
def ratFloor (q : ℚ) : ℤ := q.num / (q.den : ℤ)

/-- Python round to nearest integer with ties to even (round(x)). -/
def pyRound (q : ℚ) : ℤ :=
  if q - ratFloor q = 1/2 then
    (if ratFloor q % 2 = 0 then ratFloor q else ratFloor q + 1)
  else if q - ratFloor q < 1/2 then ratFloor q else ratFloor q + 1

/-- Python round(x, 2): round to the nearest multiple of 1/100, ties to
even (the decimal idealization of the source's float rounding). -/
def round2 (q : ℚ) : ℚ := (pyRound (q * 100) : ℚ) / 100

/-- TOTAL_WEEKS constant of app/services/loan_service.py. -/
def TOTAL_WEEKS : ℤ := 4

/-- Result dictionary of compute_weekly_progress. -/
structure WeeklyProgress where
  weekly_due_amount : ℚ
  weeks_elapsed : ℤ
  expected_paid : ℚ
  actual_paid : ℚ
  arrears_amount : ℚ
deriving Repr, DecidableEq

/-- app/services/loan_service.py def compute_weekly_progress.  start_date
is a non-nullable column, so the early-return branch for a missing start
date cannot trigger and is omitted. -/
def compute_weekly_progress (loan : Loan) (refDate : ℤ) : WeeklyProgress :=
  let weeklyDue := round2 (loan.total_amount / TOTAL_WEEKS)
  let daysElapsed := refDate - loan.start_date
  let weeksElapsed := if daysElapsed ≥ 0 then min TOTAL_WEEKS (daysElapsed / 7 + 1) else 0
  let expectedPaid := weeklyDue * weeksElapsed
  let actual := actualPaid loan
  { weekly_due_amount := weeklyDue
    weeks_elapsed := weeksElapsed
    expected_paid := round2 expectedPaid
    actual_paid := round2 actual
    arrears_amount := pyMax 0 (round2 (expectedPaid - actual)) }

/-- Mutation applied to an existing arrears row by _ensure_overdue_record
(app/services/loan_service.py lines 92-99): resync remaining_amount when it
drifted by more than 0.01, and un-clear a cleared row. -/
def ensureTransform (remaining : ℚ) (a : Arrears) : Arrears :=
  if pyAbs (a.remaining_amount - remaining) > 1/100 then
    if a.is_cleared then
      { a with remaining_amount := remaining, is_cleared := false, cleared_date := none }
    else { a with remaining_amount := remaining }
  else
    if a.is_cleared then { a with is_cleared := false, cleared_date := none }
    else a

/-- Mutation applied by sync_overdue_state (lines 136-139) to an uncleared
arrears row of a loan that is paid off. -/
def clearArrearsRow (now : ℤ) (a : Arrears) : Arrears :=
  { a with remaining_amount := 0, is_cleared := true, cleared_date := some now }

/-- app/services/loan_service.py def _ensure_overdue_record (lines 62-101):
make sure an arrears row mirroring the outstanding amount exists for the
loan.  The arrears row is looked up by loan_id (a UNIQUE column); the
mutated row is committed by that same key. -/
def ensure_overdue_record (db : DB) (loan : Loan) (remaining : ℚ) (today : ℤ) :
    Except ApiError (DB × Bool) :=
  match scalarOneOrNone (db.arrears.filter (fun a => a.loan_id == loan.id)) with
  | Except.error e => Except.error e
  | Except.ok none =>
    match scalarOneOrNone (db.customers.filter (fun c => c.id_number == loan.customer_id)) with
    | Except.error e => Except.error e
    | Except.ok custOpt =>
      let a : Arrears :=
        { id := nextId (db.arrears.map (fun x => x.id))
          loan_id := loan.id
          customer_id := custOpt.map (fun c => c.id)
          original_amount := loan.total_amount
          remaining_amount := remaining
          arrears_date := today
          is_cleared := false
          cleared_date := none }
      Except.ok ({ db with arrears := db.arrears ++ [a] }, true)
  | Except.ok (some a) =>
    let changed := decide (pyAbs (a.remaining_amount - remaining) > 1/100) || a.is_cleared
    let newArrears := db.arrears.map
      (fun x => if x.loan_id == loan.id then ensureTransform remaining x else x)
    Except.ok ({ db with arrears := newArrears }, changed)

/-- app/services/loan_service.py def sync_overdue_state (lines 104-142).
Returns the session state, the (possibly mutated) loan object and whether
any mutation occurred.  due_date is a non-nullable column, so the Python
truthiness guard on it is vacuous. -/
def sync_overdue_state (db : DB) (loan : Loan) (today now : ℤ) :
    Except ApiError (DB × Loan × Bool) :=
  let remaining := remainingAmount loan
  let loan1 := if loan.status == LoanStatus.ARREARS
               then { loan with status := LoanStatus.OVERDUE } else loan
  let changed1 := loan.status == LoanStatus.ARREARS
  if loan1.due_date < today ∧ remaining > 0 then
    let loan2 := if loan1.status == LoanStatus.OVERDUE
                 then loan1 else { loan1 with status := LoanStatus.OVERDUE }
    let changed2 := changed1 || !(loan1.status == LoanStatus.OVERDUE)
    match ensure_overdue_record db loan2 remaining today with
    | Except.error e => Except.error e
    | Except.ok (db2, c3) => Except.ok (db2, loan2, changed2 || c3)
  else
    let loan2 := if loan1.status == LoanStatus.OVERDUE && decide (remaining ≤ 0)
                 then { loan1 with status := LoanStatus.COMPLETED, completed_at := some now }
                 else loan1
    let changed2 := changed1 || (loan1.status == LoanStatus.OVERDUE && decide (remaining ≤ 0))
    match scalarOneOrNone (db.arrears.filter (fun a => a.loan_id == loan2.id)) with
    | Except.error e => Except.error e
    | Except.ok none => Except.ok (db, loan2, changed2)
    | Except.ok (some a) =>
      if !a.is_cleared && decide (remaining ≤ 0) then
        let newArrears := db.arrears.map
          (fun x => if x.loan_id == loan2.id then clearArrearsRow now x else x)
        Except.ok ({ db with arrears := newArrears }, loan2, true)
      else Except.ok (db, loan2, changed2)

/-- Request body of POST /loans (schema LoanCreate in app/schemas.py):
it carries an interest_rate field. -/
structure LoanCreate where
  id_number : String
  amount : ℚ
  interest_rate : ℚ
  start_date : ℤ
  guarantor : Option Guarantor
deriving Repr, DecidableEq

/-- app/routes/loan_routes.py def create_loan (POST /loans, lines 19-99).
The PDF receipt generation is an explicitly best-effort side effect and is
omitted.  Note the handler passes interest_rate=20.0 to the Loan
constructor, ignoring the interest_rate of the request body. -/
def create_loan (db : DB) (req : LoanCreate) (today : ℤ) :
    DB × Except ApiError Loan :=
  match scalarOneOrNone (db.customers.filter (fun c => c.id_number == req.id_number)) with
  | Except.error e => (db, Except.error e)
  | Except.ok none => (db, Except.error (ApiError.http 404 ("Customer not found")))
  | Except.ok (some customer) =>
    match scalarOneOrNone (db.loans.filter (fun l => l.customer_id == req.id_number &&
        (l.status == LoanStatus.ACTIVE || l.status == LoanStatus.OVERDUE))) with
    | Except.error e => (db, Except.error e)
    | Except.ok (some _) =>
      (db, Except.error (ApiError.http 400 ("Customer already has an active loan")))
    | Except.ok none =>
      match scalarOneOrNone (db.arrears.filter (fun a => a.customer_id == some customer.id &&
          a.is_cleared == false)) with
      | Except.error e => (db, Except.error e)
      | Except.ok (some _) =>
        (db, Except.error (ApiError.http 400 ("Customer has active arrears that must be cleared first")))
      | Except.ok none =>
        let guarantorsAndId : List Guarantor × Option Nat :=
          match req.guarantor with
          | some g =>
            let newG : Guarantor :=
              { id := nextId (db.guarantors.map (fun x => x.id))
                name := g.name
                id_number := g.id_number
                phone := g.phone
                location := g.location
                relationship := g.relationship }
            (db.guarantors ++ [newG], some newG.id)
          | none => (db.guarantors, none)
        let newLoan := mkLoan (nextId (db.loans.map (fun x => x.id)))
          { customer_id := req.id_number
            guarantor_id := guarantorsAndId.2
            amount := req.amount
            interest_rate := some 20
            start_date := some req.start_date
            due_date := none
            remaining_amount := none } today
        ({ db with guarantors := guarantorsAndId.1, loans := db.loans ++ [newLoan] },
         Except.ok newLoan)

/-- Request body of PATCH /loans (schema LoanUpdate). -/
structure LoanUpdate where
  amount : Option ℚ
  interest_rate : Option ℚ
  start_date : Option ℤ
  due_date : Option ℤ
deriving Repr, DecidableEq

/-- app/routes/loan_routes.py def update_loan (PATCH /loans, lines
102-155): recompute totals preserving the amount already paid.  The
expression loan.interest_rate or 20.0 is Python truthiness: a stored rate
of exactly 0 falls back to 20 in the recomputation (but stays 0 in the
row). -/
def update_loan (db : DB) (loanId : Nat) (payload : LoanUpdate) :
    DB × Except ApiError Loan :=
  match scalarOneOrNone (db.loans.filter (fun l => l.id == loanId)) with
  | Except.error e => (db, Except.error e)
  | Except.ok none => (db, Except.error (ApiError.http 404 ("Loan not found")))
  | Except.ok (some loan) =>
    if loan.status == LoanStatus.COMPLETED then
      (db, Except.error (ApiError.http 400 ("Cannot edit a completed loan")))
    else
      let alreadyPaid := pyMax 0 (loan.total_amount - loan.remaining_amount.getD 0)
      let loan1 := { loan with
        amount := payload.amount.getD loan.amount
        interest_rate := payload.interest_rate.getD loan.interest_rate }
      let newRate : ℚ := if loan1.interest_rate == (0 : ℚ) then 20 else loan1.interest_rate
      let newTotal := loan1.amount + loan1.amount * (newRate / 100)
      let loan2 := { loan1 with
        total_amount := newTotal
        remaining_amount := some (pyMax 0 (newTotal - alreadyPaid)) }
      let loan3 :=
        match payload.start_date with
        | some s =>
          match payload.due_date with
          | none => { loan2 with start_date := s, due_date := s + 30 }
          | some _ => { loan2 with start_date := s }
        | none => loan2
      let loan4 :=
        match payload.due_date with
        | some d => { loan3 with due_date := d }
        | none => loan3
      (updateLoan db loan4, Except.ok loan4)

/-- Request body of POST /payments (class PaymentCreate in
app/routes/payment_routes.py). -/
structure PaymentCreate where
  id_number : String
  amount : ℚ
deriving Repr, DecidableEq

/-- Response dictionary of POST /payments. -/
structure PaymentResponse where
  message : String
  installment_id : Nat
  remaining_balance : Option ℚ
  loan_status : String
  weekly_before : WeeklyProgress
  weekly_after : WeeklyProgress
deriving Repr, DecidableEq

/-- app/routes/payment_routes.py def record_payment (POST /payments, lines
25-130), the strict payment path.  The ACTIVE-loan query carries an
order_by, which cannot influence scalar_one_or_none (it only distinguishes
zero, one, or many rows) and is not modelled. -/
def record_payment (db : DB) (payment : PaymentCreate) (today now : ℤ) :
    DB × Except ApiError PaymentResponse :=
  match scalarOneOrNone (db.customers.filter (fun c => c.id_number == payment.id_number)) with
  | Except.error e => (db, Except.error e)
  | Except.ok none => (db, Except.error (ApiError.http 404 ("Customer not found")))
  | Except.ok (some _) =>
    match scalarOneOrNone (db.loans.filter (fun l => l.customer_id == payment.id_number &&
        l.status == LoanStatus.ACTIVE)) with
    | Except.error e => (db, Except.error e)
    | Except.ok none =>
      match scalarOneOrNone (db.loans.filter (fun l => l.customer_id == payment.id_number &&
          (l.status == LoanStatus.OVERDUE || l.status == LoanStatus.ARREARS))) with
      | Except.error e => (db, Except.error e)
      | Except.ok (some _) =>
        (db, Except.error (ApiError.http 400 ("This loan is overdue. Please pay through the Overdue page.")))
      | Except.ok none =>
        (db, Except.error (ApiError.http 400 ("No active loan found for this customer")))
    | Except.ok (some loan) =>
      match sync_overdue_state db loan today now with
      | Except.error e => (db, Except.error e)
      | Except.ok (db1, loan1, overdueChanged) =>
        if loan1.status ≠ LoanStatus.ACTIVE then
          if overdueChanged then
            (updateLoan db1 loan1,
             Except.error (ApiError.http 400 ("This loan is overdue. Please pay through the Overdue page.")))
          else
            (db, Except.error (ApiError.http 400 ("This loan is overdue. Please pay through the Overdue page.")))
        else
          let weeklyBefore := compute_weekly_progress loan1 today
          let inst : Installment :=
            { id := nextId (db1.installments.map (fun x => x.id))
              loan_id := loan1.id
              amount := payment.amount
              payment_date := now }
          let db2 := { db1 with installments := db1.installments ++ [inst] }
          let currentRemaining := loan1.remaining_amount.getD loan1.total_amount
          if payment.amount > currentRemaining then
            (db, Except.error (ApiError.http 400 ("Payment amount cannot exceed remaining balance")))
          else
            let newRemaining := pyMax 0 (currentRemaining - payment.amount)
            let loan2 :=
              if newRemaining ≤ 0 then
                { loan1 with remaining_amount := some newRemaining
                             status := LoanStatus.COMPLETED
                             completed_at := some now }
              else { loan1 with remaining_amount := some newRemaining }
            let weeklyAfter := compute_weekly_progress loan2 today
            match sync_overdue_state db2 loan2 today now with
            | Except.error e => (db, Except.error e)
            | Except.ok (db3, loan3, _) =>
              (updateLoan db3 loan3,
               Except.ok
                 { message := "Payment recorded successfully"
                   installment_id := inst.id
                   remaining_balance := loan3.remaining_amount
                   loan_status := loan3.status.value
                   weekly_before := weeklyBefore
                   weekly_after := weeklyAfter })

/-- Request body of PUT /payments/installments (class InstallmentUpdate). -/
structure InstallmentUpdate where
  amount : ℚ
deriving Repr, DecidableEq

/-- Response dictionary of PUT /payments/installments. -/
structure InstallmentUpdateResponse where
  message : String
  installment_id : Nat
  new_amount : ℚ
  remaining_balance : Option ℚ
  loan_status : String
deriving Repr, DecidableEq

/-- Response dictionary of DELETE /payments/installments. -/
structure InstallmentDeleteResponse where
  message : String
  remaining_balance : Option ℚ
  loan_status : String
deriving Repr, DecidableEq

/-- Aggregate SELECT coalesce(sum(amount), 0) over the installments of a
loan, as used by the installment correction endpoints. -/
def paidSum (insts : List Installment) (loanId : Nat) : ℚ :=
  ((insts.filter (fun i => i.loan_id == loanId)).map (fun i => i.amount)).sum

/-- app/routes/payment_routes.py def update_installment_amount (PUT
/payments/installments, lines 133-208): update one installment, recompute
the loan balance from the sum of its installments (the pending update is
flushed before the aggregate query), and re-derive the status. -/
def update_installment_amount (db : DB) (instId : Nat) (body : InstallmentUpdate)
    (today now : ℤ) : DB × Except ApiError InstallmentUpdateResponse :=
  if body.amount ≤ 0 then
    (db, Except.error (ApiError.http 400 ("Amount must be positive")))
  else
    match scalarOneOrNone (db.installments.filter (fun i => i.id == instId)) with
    | Except.error e => (db, Except.error e)
    | Except.ok none => (db, Except.error (ApiError.http 404 ("Installment not found")))
    | Except.ok (some inst) =>
      match scalarOneOrNone (db.loans.filter (fun l => l.id == inst.loan_id)) with
      | Except.error e => (db, Except.error e)
      | Except.ok none => (db, Except.error (ApiError.http 404 ("Linked loan not found")))
      | Except.ok (some loan) =>
        let newInsts := db.installments.map
          (fun x => if x.id == instId then { x with amount := body.amount } else x)
        let db1 := { db with installments := newInsts }
        let totalPaid := paidSum db1.installments loan.id
        let newRemaining := pyMax 0 (loan.total_amount - totalPaid)
        let loan1 := { loan with remaining_amount := some newRemaining }
        let loan2 :=
          if newRemaining ≤ 0 then
            { loan1 with status := LoanStatus.COMPLETED, completed_at := some now }
          else if loan1.due_date < today then
            { loan1 with completed_at := none, status := LoanStatus.OVERDUE }
          else
            { loan1 with completed_at := none, status := LoanStatus.ACTIVE }
        match sync_overdue_state db1 loan2 today now with
        | Except.error e => (db, Except.error e)
        | Except.ok (db2, loan3, _) =>
          (updateLoan db2 loan3,
           Except.ok
             { message := "Installment updated successfully"
               installment_id := instId
               new_amount := body.amount
               remaining_balance := loan3.remaining_amount
               loan_status := loan3.status.value })

/-- app/routes/payment_routes.py def delete_installment (DELETE
/payments/installments, lines 211-272): remove one installment, recompute
the loan balance from the remaining installments, and re-derive the
status. -/
def delete_installment (db : DB) (instId : Nat) (today now : ℤ) :
    DB × Except ApiError InstallmentDeleteResponse :=
  match scalarOneOrNone (db.installments.filter (fun i => i.id == instId)) with
  | Except.error e => (db, Except.error e)
  | Except.ok none => (db, Except.error (ApiError.http 404 ("Installment not found")))
  | Except.ok (some inst) =>
    match scalarOneOrNone (db.loans.filter (fun l => l.id == inst.loan_id)) with
    | Except.error e => (db, Except.error e)
    | Except.ok none => (db, Except.error (ApiError.http 404 ("Linked loan not found")))
    | Except.ok (some loan) =>
      let newInsts := db.installments.filter (fun x => !(x.id == instId))
      let db1 := { db with installments := newInsts }
      let totalPaid := paidSum db1.installments loan.id
      let newRemaining := pyMax 0 (loan.total_amount - totalPaid)
      let loan1 := { loan with remaining_amount := some newRemaining }
      let loan2 :=
        if newRemaining ≤ 0 then
          { loan1 with status := LoanStatus.COMPLETED, completed_at := some now }
        else if loan1.due_date < today then
          { loan1 with completed_at := none, status := LoanStatus.OVERDUE }
        else
          { loan1 with completed_at := none, status := LoanStatus.ACTIVE }
      match sync_overdue_state db1 loan2 today now with
      | Except.error e => (db, Except.error e)
      | Except.ok (db2, loan3, _) =>
        (updateLoan db2 loan3,
         Except.ok
           { message := "Installment deleted successfully"
             remaining_balance := loan3.remaining_amount
             loan_status := loan3.status.value })

/-- Request body of POST /arrears installments (class ArrearsPayment). -/
structure ArrearsPayment where
  amount : ℚ
deriving Repr, DecidableEq

/-- Response dictionary of the arrears payment endpoint. -/
structure ArrearsPayResponse where
  message : String
  remaining_amount : ℚ
  is_cleared : Bool
deriving Repr, DecidableEq

/-- app/routes/arrears_routes.py def pay_arrears (lines 68-102): clamp the
arrears balance at zero, mirror it onto the loan, and complete both when it
reaches exactly zero.  When the linked loan row is missing only the arrears
row is updated (and never marked cleared). -/
def pay_arrears (db : DB) (arrearsId : Nat) (body : ArrearsPayment) (now : ℤ) :
    DB × Except ApiError ArrearsPayResponse :=
  match scalarOneOrNone (db.arrears.filter (fun a => a.id == arrearsId)) with
  | Except.error e => (db, Except.error e)
  | Except.ok none => (db, Except.error (ApiError.http 404 ("Arrears not found")))
  | Except.ok (some arrears) =>
    if arrears.is_cleared then
      (db, Except.error (ApiError.http 400 ("Arrears already cleared")))
    else if body.amount ≤ 0 then
      (db, Except.error (ApiError.http 400 ("Amount must be positive")))
    else
      let newRem := pyMax 0 (arrears.remaining_amount - body.amount)
      let a1 := { arrears with remaining_amount := newRem }
      match scalarOneOrNone (db.loans.filter (fun l => l.id == arrears.loan_id)) with
      | Except.error e => (db, Except.error e)
      | Except.ok none =>
        (updateArrearsById db a1,
         Except.ok { message := "Arrears payment recorded"
                     remaining_amount := newRem
                     is_cleared := a1.is_cleared })
      | Except.ok (some loan) =>
        if newRem == 0 then
          let a2 := { a1 with is_cleared := true, cleared_date := some now }
          let loan2 := { loan with remaining_amount := some newRem
                                   status := LoanStatus.COMPLETED
                                   completed_at := some now }
          (updateLoan (updateArrearsById db a2) loan2,
           Except.ok { message := "Arrears payment recorded"
                       remaining_amount := newRem
                       is_cleared := true })
        else
          let loan2 := { loan with remaining_amount := some newRem
                                   status := LoanStatus.ARREARS }
          (updateLoan (updateArrearsById db a1) loan2,
           Except.ok { message := "Arrears payment recorded"
                       remaining_amount := newRem
                       is_cleared := a1.is_cleared })

/-- app/routes/arrears_routes.py def clear_arrears (lines 105-128): zero
and clear the arrears row unconditionally, and complete the linked loan if
it is not completed yet. -/
def clear_arrears (db : DB) (arrearsId : Nat) (now : ℤ) :
    DB × Except ApiError String :=
  match scalarOneOrNone (db.arrears.filter (fun a => a.id == arrearsId)) with
  | Except.error e => (db, Except.error e)
  | Except.ok none => (db, Except.error (ApiError.http 404 ("Arrears not found")))
  | Except.ok (some arrears) =>
    let a1 := { arrears with remaining_amount := 0, is_cleared := true, cleared_date := some now }
    let db1 := updateArrearsById db a1
    match scalarOneOrNone (db.loans.filter (fun l => l.id == arrears.loan_id)) with
    | Except.error e => (db, Except.error e)
    | Except.ok none => (db1, Except.ok ("Arrears cleared"))
    | Except.ok (some loan) =>
      if loan.status ≠ LoanStatus.COMPLETED then
        (updateLoan db1 { loan with remaining_amount := some 0
                                    status := LoanStatus.COMPLETED
                                    completed_at := some now },
         Except.ok ("Arrears cleared"))
      else (db1, Except.ok ("Arrears cleared"))

/-- Python date.weekday() on a date given by its ordinal: Monday is 0 and
Sunday is 6; ordinal 1 (0001-01-01) is a Monday. -/
def pyWeekday (o : ℤ) : ℤ := (o - 1) % 7

/-- app/routes/dashboard_routes.py def get_week_start_end (lines 81-88):
start (Sunday) and end (Saturday) of the calendar week of a date. -/
def get_week_start_end (today : ℤ) : ℤ × ℤ :=
  let daysSinceSunday := (pyWeekday today + 1) % 7
  let weekStart := today - daysSinceSunday
  (weekStart, weekStart + 6)

/-- Names bound at module level in app/routes/dashboard_routes.py: the
imported names (lines 1-16) followed by the module-level definitions. -/
def dashboardRoutesModuleNames : List String :=
  ["APIRouter", "Depends", "HTTPException", "AsyncSession", "select",
   "func", "and_", "or_", "text", "datetime", "date", "timedelta",
   "List", "Tuple", "FileResponse", "os", "A4", "inch", "colors",
   "canvas", "get_db", "Loan", "Customer", "Arrears", "LoanStatus",
   "Installment", "get_current_user", "sync_overdue_state", "router",
   "_refresh_overdue_states", "get_dashboard_metrics", "get_week_start_end",
   "get_dashboard_summary", "get_trends", "get_recent_activity",
   "download_payments_report"]

/-- Python builtins referenced by the dashboard module. -/
def pythonBuiltinNames : List String :=
  ["round", "int", "float", "sum", "len", "str", "max", "min"]

/-- Global names evaluated by the body of get_dashboard_summary
(app/routes/dashboard_routes.py lines 91-216), in evaluation order. -/
def getDashboardSummaryGlobalRefs : List String :=
  ["datetime", "time", "get_week_start_end", "timedelta", "select",
   "func", "Loan", "LoanStatus", "round", "Arrears", "Installment",
   "int", "float"]

/-- First name the handler evaluates that resolves neither in the module
namespace nor among the builtins; evaluating such a name raises NameError,
which surfaces as HTTP 500. -/
def firstUnresolvedName (refs : List String) : Option String :=
  refs.find? (fun n =>
    !(dashboardRoutesModuleNames.contains n || pythonBuiltinNames.contains n))

/-- Concrete rows used by the witness and counterexample statements. -/
def fixCustomer : Customer := { id := 1, name := "Alice", id_number := "A1", phone := "555" }

/-- A concrete 1000-principal, 20-percent loan of customer A1. -/
def fixLoan (i : Nat) (stat : LoanStatus) (due : ℤ) (rem : Option ℚ) : Loan :=
  { id := i
    customer_id := "A1"
    guarantor_id := none
    amount := 1000
    interest_rate := 20
    total_amount := 1200
    remaining_amount := rem
    start_date := 0
    due_date := due
    status := stat
    completed_at := none }

/-- The empty database. -/
def emptyDB : DB :=
  { customers := [], guarantors := [], loans := [], installments := [], arrears := [] }

/-- A database holding only customer A1. -/
def custDB : DB := { emptyDB with customers := [fixCustomer] }

/-- A concrete loan-creation request for customer A1. -/
def fixReq (rate : ℚ) : LoanCreate :=
  { id_number := "A1", amount := 1000, interest_rate := rate, start_date := 0, guarantor := none }

/-- Database with one past-due ACTIVE loan whose arrears row drifted by
half a cent (0.005) from the loan balance. -/
def C2db : DB :=
  { custDB with loans := [fixLoan 1 LoanStatus.ACTIVE 10 (some 100)],
                arrears := [⟨1, 1, some 1, 1200, 100 + 1/200, 10, false, none⟩] }

/-- Database with one stale-ACTIVE loan that is already past due. -/
def C4db : DB := { custDB with loans := [fixLoan 1 LoanStatus.ACTIVE 10 (some 100)] }

/-- Database with one ACTIVE loan and a recorded installment of 200. -/
def C5db : DB :=
  { custDB with loans := [fixLoan 1 LoanStatus.ACTIVE 30 (some 1000)],
                installments := [⟨1, 1, 200, 5⟩] }

/-- Database with a fully paid COMPLETED loan (one 1200 installment). -/
def C5db2 : DB :=
  { custDB with loans := [fixLoan 1 LoanStatus.COMPLETED 30 (some 0)],
                installments := [⟨1, 1, 1200, 5⟩] }

/-- Every stored remaining amount in the database is nonnegative. -/
def dbNonneg (db : DB) : Prop :=
  (∀ l ∈ db.loans, 0 ≤ l.remaining_amount.getD 0) ∧
  (∀ a ∈ db.arrears, 0 ≤ a.remaining_amount)

/-- Ground evaluations of the derived status equality test. -/
theorem beq_ACTIVE_ARREARS : (LoanStatus.ACTIVE == LoanStatus.ARREARS) = false := rfl

theorem beq_COMPLETED_ARREARS : (LoanStatus.COMPLETED == LoanStatus.ARREARS) = false := rfl

theorem beq_OVERDUE_ARREARS : (LoanStatus.OVERDUE == LoanStatus.ARREARS) = false := rfl

theorem beq_ARREARS_ARREARS : (LoanStatus.ARREARS == LoanStatus.ARREARS) = true := rfl

theorem beq_ACTIVE_OVERDUE : (LoanStatus.ACTIVE == LoanStatus.OVERDUE) = false := rfl

theorem beq_COMPLETED_OVERDUE : (LoanStatus.COMPLETED == LoanStatus.OVERDUE) = false := rfl

theorem beq_OVERDUE_OVERDUE : (LoanStatus.OVERDUE == LoanStatus.OVERDUE) = true := rfl

theorem beq_ARREARS_OVERDUE : (LoanStatus.ARREARS == LoanStatus.OVERDUE) = false := rfl

/-- scalar_one_or_none of an empty result. -/
theorem scalarOneOrNone_nil {α : Type} : scalarOneOrNone ([] : List α) = Except.ok none := rfl

/-- scalar_one_or_none of a singleton result. -/
theorem scalarOneOrNone_one {α : Type} (a : α) :
    scalarOneOrNone [a] = Except.ok (some a) := rfl

/-- scalar_one_or_none over at most one row returns the optional head. -/
theorem scalarOneOrNone_of_short {α : Type} (xs : List α) (h : xs.length ≤ 1) :
    scalarOneOrNone xs = Except.ok xs.head? := by
  match xs with
  | [] => rfl
  | [_] => rfl
  | _ :: _ :: _ => simp at h

/-- A row returned by scalar_one_or_none was among the queried rows. -/
theorem mem_of_scalarOneOrNone {α : Type} {xs : List α} {a : α}
    (h : scalarOneOrNone xs = Except.ok (some a)) : a ∈ xs := by
  match xs with
  | [] => simp [scalarOneOrNone] at h
  | [b] => simp [scalarOneOrNone] at h; simp [h]
  | _ :: _ :: _ => simp [scalarOneOrNone] at h

/-- A unique filter result is a member satisfying the predicate. -/
theorem mem_of_filter_eq_single {α : Type} {p : α → Bool} {xs : List α} {a : α}
    (h : xs.filter p = [a]) : a ∈ xs ∧ p a = true := by
  have ha : a ∈ xs.filter p := by rw [h]; exact List.mem_singleton_self a
  exact ⟨List.mem_of_mem_filter ha, List.of_mem_filter ha⟩

/-- Replacing every row matched by a predicate with a fixed row commutes
with filtering by that predicate. -/
theorem filter_map_update {α : Type} (p : α → Bool) (l : α) (hl : p l = true)
    (xs : List α) :
    (xs.map (fun x => if p x then l else x)).filter p = (xs.filter p).map (fun _ => l) := by
  induction xs with
  | nil => rfl
  | cons x t ih =>
    by_cases hx : p x = true
    · simp [hx, hl, ih]
    · simp only [Bool.not_eq_true] at hx
      simp [hx, ih]

/-- Mapping a row transformation that does not change the predicate
commutes with filtering. -/
theorem filter_map_congr {α : Type} (p : α → Bool) (f : α → α)
    (hf : ∀ x, p (f x) = p x) (xs : List α) :
    (xs.map f).filter p = (xs.filter p).map f := by
  induction xs with
  | nil => rfl
  | cons x t ih =>
    by_cases hx : p x = true
    · simp [hx, hf x, ih]
    · simp only [Bool.not_eq_true] at hx
      simp [hx, hf x, ih]

/-- The arrears resync mutation keeps the loan_id key. -/
theorem ensureTransform_loan_id (r : ℚ) (a : Arrears) :
    (ensureTransform r a).loan_id = a.loan_id := by
  unfold ensureTransform
  split <;> split <;> rfl

/-- The arrears resync mutation always leaves the row uncleared. -/
theorem ensureTransform_is_cleared (r : ℚ) (a : Arrears) :
    (ensureTransform r a).is_cleared = false := by
  unfold ensureTransform
  by_cases hcl : a.is_cleared <;> split <;> simp_all

/-- pyAbs agrees with the absolute value. -/
theorem pyAbs_eq_abs (q : ℚ) : pyAbs q = |q| := by
  unfold pyAbs
  by_cases h : q < 0
  · simp [h, abs_of_neg h]
  · simp [h, abs_of_nonneg (not_lt.mp h)]

/-- pyMax agrees with the binary maximum. -/
theorem pyMax_eq_max (a b : ℚ) : pyMax a b = max a b := by
  unfold pyMax
  by_cases h : a ≤ b
  · simp [h, max_eq_right h]
  · simp [h, max_eq_left (le_of_not_le h)]

/-- After the resync mutation the row is within 0.01 of the target. -/
theorem ensureTransform_close (r : ℚ) (a : Arrears) :
    pyAbs ((ensureTransform r a).remaining_amount - r) ≤ 1/100 := by
  unfold ensureTransform
  by_cases hd : pyAbs (a.remaining_amount - r) > 1/100
  · simp only [hd, if_true]
    split <;> simp [pyAbs_eq_abs]
  · simp only [hd, if_false]
    split <;> simpa using le_of_not_lt hd

theorem ensureTransform_rem_cases (r : ℚ) (a : Arrears) :
    (ensureTransform r a).remaining_amount = r ∨
      (ensureTransform r a).remaining_amount = a.remaining_amount := by
  unfold ensureTransform
  split <;> split <;> simp

/-- The clearing mutation keeps the loan_id key. -/
theorem clearArrearsRow_loan_id (now : ℤ) (a : Arrears) :
    (clearArrearsRow now a).loan_id = a.loan_id := rfl

/-- Specification of _ensure_overdue_record when the database respects the
uniqueness constraints on arrears.loan_id and customers.id_number: it
succeeds touching only the arrears table, and afterwards an uncleared
arrears row for the loan exists whose remaining amount is within 0.01 of
the requested amount (exactly equal when the row is freshly created). -/
theorem ensure_spec (db : DB) (loan : Loan) (remaining : ℚ) (today : ℤ)
    (ha : (db.arrears.filter (fun a => a.loan_id == loan.id)).length ≤ 1)
    (hc : (db.customers.filter (fun c => c.id_number == loan.customer_id)).length ≤ 1) :
    ∃ db2 ch, ensure_overdue_record db loan remaining today = Except.ok (db2, ch) ∧
      db2.customers = db.customers ∧ db2.guarantors = db.guarantors ∧
      db2.loans = db.loans ∧ db2.installments = db.installments ∧
      (∃ a ∈ db2.arrears, a.loan_id = loan.id ∧ a.is_cleared = false ∧
        pyAbs (a.remaining_amount - remaining) ≤ 1/100) ∧
      (db2.arrears.filter (fun a => a.loan_id == loan.id)).length ≤ 1 := by
  unfold ensure_overdue_record
  match harr : db.arrears.filter (fun a => a.loan_id == loan.id) with
  | [] =>
    rw [harr, scalarOneOrNone_of_short _ hc]
    simp only [scalarOneOrNone, List.head?]
    refine ⟨_, _, rfl, rfl, rfl, rfl, rfl, ?_, ?_⟩
    · refine ⟨_, List.mem_append_right _ (List.mem_singleton_self _), rfl, rfl, ?_⟩
      simp [pyAbs_eq_abs]
    · rw [List.filter_append, harr]
      simp
  | [a] =>
    rw [harr]
    simp only [scalarOneOrNone]
    refine ⟨_, _, rfl, rfl, rfl, rfl, rfl, ?_, ?_⟩
    · have hmem := mem_of_filter_eq_single harr
      refine ⟨ensureTransform remaining a, ?_, ?_, ensureTransform_is_cleared _ _,
        ensureTransform_close _ _⟩
      · exact List.mem_map.mpr ⟨a, hmem.1, by simp [hmem.2]⟩
      · rw [ensureTransform_loan_id]
        simpa using hmem.2
    · rw [filter_map_congr _ _ (fun x => ?_), harr]
      · simp
      · by_cases hx : (x.loan_id == loan.id) = true
        · simp [hx, ensureTransform_loan_id]
        · simp only [Bool.not_eq_true] at hx
          simp [hx]
  | a :: b :: t => rw [harr] at ha; simp at ha

/-- sync_overdue_state on a loan that is not overdue by schedule and whose
status is neither OVERDUE nor legacy ARREARS: the loan object is returned
unchanged and only the arrears table can change (an uncleared row of a paid
off loan being cleared). -/
theorem sync_quiet (db : DB) (loan : Loan) (today now : ℤ)
    (hg : ¬(loan.due_date < today ∧ remainingAmount loan > 0))
    (hs1 : loan.status ≠ LoanStatus.OVERDUE) (hs2 : loan.status ≠ LoanStatus.ARREARS)
    (ha : (db.arrears.filter (fun a => a.loan_id == loan.id)).length ≤ 1) :
    ∃ db2 ch, sync_overdue_state db loan today now = Except.ok (db2, loan, ch) ∧
      db2.customers = db.customers ∧ db2.guarantors = db.guarantors ∧
      db2.loans = db.loans ∧ db2.installments = db.installments ∧
      (db2.arrears.filter (fun a => a.loan_id == loan.id)).length ≤ 1 := by
  obtain ⟨i, cid, gid, amt, rate, tot, rem, sd, dd, st, ca⟩ := loan
  cases st with
  | OVERDUE => exact absurd rfl hs1
  | ARREARS => exact absurd rfl hs2
  | ACTIVE =>
    try dsimp only at ha ⊢
    simp only [remainingAmount] at hg
    try dsimp only at hg
    simp only [sync_overdue_state, remainingAmount, beq_ACTIVE_ARREARS,
      beq_COMPLETED_ARREARS, beq_OVERDUE_ARREARS, beq_ARREARS_ARREARS,
      beq_ACTIVE_OVERDUE, beq_COMPLETED_OVERDUE, beq_OVERDUE_OVERDUE,
      beq_ARREARS_OVERDUE, Bool.false_and, Bool.false_eq_true, if_true, if_false,
      ite_true, ite_false]
    rw [if_neg hg, scalarOneOrNone_of_short _ ha]
    match harr : db.arrears.filter (fun a => a.loan_id == i) with
    | [] =>
      rw [harr]
      exact ⟨db, _, rfl, rfl, rfl, rfl, rfl, ha⟩
    | [a] =>
      rw [harr]
      simp only [List.head?]
      by_cases hcl : (!a.is_cleared && decide (Option.getD rem tot ≤ 0)) = true
      · rw [if_pos hcl]
        refine ⟨_, _, rfl, rfl, rfl, rfl, rfl, ?_⟩
        rw [filter_map_congr _ _ (fun x => ?_), harr]
        · simp
        · by_cases hx : (x.loan_id == i) = true
          · simp [hx, clearArrearsRow_loan_id]
          · simp only [Bool.not_eq_true] at hx
            simp [hx]
      · rw [if_neg hcl]
        exact ⟨db, _, rfl, rfl, rfl, rfl, rfl, ha⟩
    | a :: b :: t => rw [harr] at ha; simp at ha
  | COMPLETED =>
    try dsimp only at ha ⊢
    simp only [remainingAmount] at hg
    try dsimp only at hg
    simp only [sync_overdue_state, remainingAmount, beq_ACTIVE_ARREARS,
      beq_COMPLETED_ARREARS, beq_OVERDUE_ARREARS, beq_ARREARS_ARREARS,
      beq_ACTIVE_OVERDUE, beq_COMPLETED_OVERDUE, beq_OVERDUE_OVERDUE,
      beq_ARREARS_OVERDUE, Bool.false_and, Bool.false_eq_true, if_true, if_false,
      ite_true, ite_false]
    rw [if_neg hg, scalarOneOrNone_of_short _ ha]
    match harr : db.arrears.filter (fun a => a.loan_id == i) with
    | [] =>
      rw [harr]
      exact ⟨db, _, rfl, rfl, rfl, rfl, rfl, ha⟩
    | [a] =>
      rw [harr]
      simp only [List.head?]
      by_cases hcl : (!a.is_cleared && decide (Option.getD rem tot ≤ 0)) = true
      · rw [if_pos hcl]
        refine ⟨_, _, rfl, rfl, rfl, rfl, rfl, ?_⟩
        rw [filter_map_congr _ _ (fun x => ?_), harr]
        · simp
        · by_cases hx : (x.loan_id == i) = true
          · simp [hx, clearArrearsRow_loan_id]
          · simp only [Bool.not_eq_true] at hx
            simp [hx]
      · rw [if_neg hcl]
        exact ⟨db, _, rfl, rfl, rfl, rfl, rfl, ha⟩
    | a :: b :: t => rw [harr] at ha; simp at ha

/-- sync_overdue_state on a loan that is overdue by schedule (past due
date, positive balance): the returned loan object is the input with status
OVERDUE (legacy ARREARS included), only the arrears table changes, and an
uncleared arrears row for the loan within 0.01 of the loan's outstanding
amount exists afterwards. -/
theorem sync_becomes_overdue (db : DB) (loan : Loan) (today now : ℤ)
    (hg1 : loan.due_date < today) (hg2 : remainingAmount loan > 0)
    (ha : (db.arrears.filter (fun a => a.loan_id == loan.id)).length ≤ 1)
    (hc : (db.customers.filter (fun c => c.id_number == loan.customer_id)).length ≤ 1) :
    ∃ db2 ch, sync_overdue_state db loan today now =
        Except.ok (db2, { loan with status := LoanStatus.OVERDUE }, ch) ∧
      db2.customers = db.customers ∧ db2.guarantors = db.guarantors ∧
      db2.loans = db.loans ∧ db2.installments = db.installments ∧
      (∃ a ∈ db2.arrears, a.loan_id = loan.id ∧ a.is_cleared = false ∧
        pyAbs (a.remaining_amount - remainingAmount loan) ≤ 1/100) ∧
      (db2.arrears.filter (fun a => a.loan_id == loan.id)).length ≤ 1 := by
  obtain ⟨i, cid, gid, amt, rate, tot, rem, sd, dd, st, ca⟩ := loan
  try dsimp only at ha hc hg1 ⊢
  simp only [remainingAmount] at hg2
  try dsimp only at hg2
  obtain ⟨db2, ch, heq, h1, h2, h3, h4, h5, h6⟩ :=
    ensure_spec db
      { id := i
        customer_id := cid
        guarantor_id := gid
        amount := amt
        interest_rate := rate
        total_amount := tot
        remaining_amount := rem
        start_date := sd
        due_date := dd
        status := LoanStatus.OVERDUE
        completed_at := ca }
      (Option.getD rem tot) today (by exact ha) (by exact hc)
  cases st <;>
    (simp only [sync_overdue_state, remainingAmount, beq_ACTIVE_ARREARS,
       beq_COMPLETED_ARREARS, beq_OVERDUE_ARREARS, beq_ARREARS_ARREARS,
       beq_ACTIVE_OVERDUE, beq_COMPLETED_OVERDUE, beq_OVERDUE_OVERDUE,
       beq_ARREARS_OVERDUE, Bool.false_and, Bool.false_eq_true, if_true, if_false,
       ite_true, ite_false]
     rw [if_pos ⟨hg1, hg2⟩, heq]
     exact ⟨db2, _, rfl, h1, h2, h3, h4, by simpa using h5, by simpa using h6⟩)

/-- C1: for every loan at creation (remaining_amount is never passed by any
creation site), total_amount equals amount times (1 + interest_rate / 100),
where interest_rate is the rate stored on the loan, and remaining_amount is
initialized to total_amount. -/
theorem C1_loan_totals (i : Nat) (kw : LoanKwargs) (today : ℤ)
    (h : kw.remaining_amount = none) :
    (mkLoan i kw today).total_amount =
      (mkLoan i kw today).amount * (1 + (mkLoan i kw today).interest_rate / 100) ∧
    (mkLoan i kw today).remaining_amount = some ((mkLoan i kw today).total_amount) := by
  simp only [mkLoan, h]
  refine ⟨by ring, ?_⟩
  trivial

/-- C1 witness: a loan of 1000 at 50 percent. -/
theorem C1_witness :
    (mkLoan 1 ⟨"A1", none, 1000, some 50, some 0, none, none⟩ 0).total_amount =
      (mkLoan 1 ⟨"A1", none, 1000, some 50, some 0, none, none⟩ 0).amount *
        (1 + (mkLoan 1 ⟨"A1", none, 1000, some 50, some 0, none, none⟩ 0).interest_rate / 100) ∧
    (mkLoan 1 ⟨"A1", none, 1000, some 50, some 0, none, none⟩ 0).remaining_amount =
      some ((mkLoan 1 ⟨"A1", none, 1000, some 50, some 0, none, none⟩ 0).total_amount) :=
  C1_loan_totals 1 ⟨"A1", none, 1000, some 50, some 0, none, none⟩ 0 rfl

/-- C6 counterexample: Loan.__init__ called with both start_date (100) and
an explicit due_date (200) stores due_date 130 = start + 30, not the
explicitly supplied 200: the supplied due_date is overridden. -/
theorem C6_counterexample :
    (⟨"A1", none, 1000, none, some 100, some 200, none⟩ : LoanKwargs).due_date = some 200 ∧
    (mkLoan 1 ⟨"A1", none, 1000, none, some 100, some 200, none⟩ 0).due_date = 130 ∧
    (mkLoan 1 ⟨"A1", none, 1000, none, some 100, some 200, none⟩ 0).due_date ≠ 200 := by
  exact ⟨rfl, rfl, by decide⟩

/-- C6 (amended): due_date is start_date + 30 days whenever start_date is
supplied at creation, even when a due_date is explicitly supplied; an
explicitly supplied due_date is stored only when start_date is absent; with
neither, due_date is today + 30 days. -/
theorem C6_due_date (i : Nat) (kw : LoanKwargs) (today : ℤ) :
    (∀ s, kw.start_date = some s → (mkLoan i kw today).due_date = s + 30) ∧
    (kw.start_date = none → ∀ d, kw.due_date = some d → (mkLoan i kw today).due_date = d) ∧
    (kw.start_date = none → kw.due_date = none → (mkLoan i kw today).due_date = today + 30) := by
  refine ⟨fun s hs => ?_, fun hs d hd => ?_, fun hs hd => ?_⟩
  · simp [mkLoan, hs]
  · simp [mkLoan, hs, hd]
  · simp [mkLoan, hs, hd]

/-- C6 witness: the three due-date rules at concrete kwargs. -/
theorem C6_witness :
    (mkLoan 1 ⟨"A1", none, 1000, none, some 100, some 200, none⟩ 0).due_date = 100 + 30 ∧
    (mkLoan 1 ⟨"A1", none, 1000, none, none, some 200, none⟩ 0).due_date = 200 ∧
    (mkLoan 1 ⟨"A1", none, 1000, none, none, none, none⟩ 7).due_date = 7 + 30 :=
  ⟨(C6_due_date 1 ⟨"A1", none, 1000, none, some 100, some 200, none⟩ 0).1 100 rfl,
   (C6_due_date 1 ⟨"A1", none, 1000, none, none, some 200, none⟩ 0).2.1 rfl 200 rfl,
   (C6_due_date 1 ⟨"A1", none, 1000, none, none, none, none⟩ 7).2.2 rfl rfl⟩

/-- C8: the week-bucketing helper is correct (week_start is a Sunday in the
Python weekday convention, week_end is week_start + 6, and the queried date
falls inside the week), but the summary handler evaluates the global name
time, which is bound neither in the module nor among the builtins, so GET
/dashboard/summary raises NameError (HTTP 500) instead of returning the
weekly and monthly totals. -/
theorem C8_dashboard_summary :
    firstUnresolvedName getDashboardSummaryGlobalRefs = some "time" ∧
    ∀ o : ℤ, pyWeekday (get_week_start_end o).1 = 6 ∧
      (get_week_start_end o).2 = (get_week_start_end o).1 + 6 ∧
      (get_week_start_end o).1 ≤ o ∧ o ≤ (get_week_start_end o).2 := by
  refine ⟨by decide, fun o => ?_⟩
  dsimp only [get_week_start_end, pyWeekday]
  refine ⟨?_, ?_, ?_, ?_⟩ <;> omega

/-- C9: every loan created through POST /loans is stored with interest_rate
exactly 20 regardless of the interest_rate supplied in the request body
(the handler ignores it entirely), so total_amount is always 1.2 times the
principal. -/
theorem C9_hardcoded_rate (db : DB) (req : LoanCreate) (today : ℤ) (cust : Customer)
    (hc : db.customers.filter (fun c => c.id_number == req.id_number) = [cust])
    (hl : db.loans.filter (fun l => l.customer_id == req.id_number &&
        (l.status == LoanStatus.ACTIVE || l.status == LoanStatus.OVERDUE)) = [])
    (ha : db.arrears.filter (fun a => a.customer_id == some cust.id &&
        a.is_cleared == false) = []) :
    (∀ r : ℚ, create_loan db { req with interest_rate := r } today = create_loan db req today) ∧
    ∃ db2 l, create_loan db req today = (db2, Except.ok l) ∧
      l.interest_rate = 20 ∧ l.total_amount = 6/5 * req.amount ∧
      l.remaining_amount = some (6/5 * req.amount) := by
  constructor
  · intro r; rfl
  · simp only [create_loan, hc, scalarOneOrNone_one, scalarOneOrNone_nil, hl, ha]
    cases hreq : req.guarantor with
    | none =>
      refine ⟨_, _, rfl, ?_, ?_, ?_⟩
      · rfl
      · simp only [mkLoan, Option.getD_some]
        ring
      · simp only [mkLoan, Option.getD_some, Option.some.injEq]
        ring
    | some g =>
      refine ⟨_, _, rfl, ?_, ?_, ?_⟩
      · rfl
      · simp only [mkLoan, Option.getD_some]
        ring
      · simp only [mkLoan, Option.getD_some, Option.some.injEq]
        ring

/-- C9 witness: creating a loan for customer A1 with a request rate of 50
stores rate 20 and total 1200. -/
theorem C9_witness :
    ∃ db2 l, create_loan custDB (fixReq 50) 0 = (db2, Except.ok l) ∧
      l.interest_rate = 20 ∧ l.total_amount = 6/5 * (fixReq 50).amount ∧
      l.remaining_amount = some (6/5 * (fixReq 50).amount) :=
  (C9_hardcoded_rate custDB (fixReq 50) 0 fixCustomer (by decide) (by decide) (by decide)).2

/-- C7 (amended): with at most one matching row per uniqueness constraint,
POST /loans returns 404 for an unknown customer, 400 when the customer has
exactly one ACTIVE or OVERDUE loan, and 400 when the customer has exactly
one uncleared arrears record; in each case the committed database is the
input one, so no loan or guarantor is persisted.  With two or more such
loans the lookup raises MultipleResultsFound instead (HTTP 500, see the
counterexample). -/
theorem C7_create_loan_guards (db : DB) (req : LoanCreate) (today : ℤ) :
    (db.customers.filter (fun c => c.id_number == req.id_number) = [] →
      create_loan db req today =
        (db, Except.error (ApiError.http 404 ("Customer not found")))) ∧
    (∀ cust loanA, db.customers.filter (fun c => c.id_number == req.id_number) = [cust] →
      db.loans.filter (fun l => l.customer_id == req.id_number &&
        (l.status == LoanStatus.ACTIVE || l.status == LoanStatus.OVERDUE)) = [loanA] →
      create_loan db req today =
        (db, Except.error (ApiError.http 400 ("Customer already has an active loan")))) ∧
    (∀ cust arr, db.customers.filter (fun c => c.id_number == req.id_number) = [cust] →
      db.loans.filter (fun l => l.customer_id == req.id_number &&
        (l.status == LoanStatus.ACTIVE || l.status == LoanStatus.OVERDUE)) = [] →
      db.arrears.filter (fun a => a.customer_id == some cust.id &&
        a.is_cleared == false) = [arr] →
      create_loan db req today =
        (db, Except.error (ApiError.http 400 ("Customer has active arrears that must be cleared first")))) := by
  refine ⟨fun hc => ?_, fun cust loanA hc hl => ?_, fun cust arr hc hl ha => ?_⟩
  · simp [create_loan, hc, scalarOneOrNone_nil]
  · simp [create_loan, hc, hl, scalarOneOrNone_one, scalarOneOrNone_nil]
  · have ha2 : db.arrears.filter (fun a => a.customer_id == some cust.id && !a.is_cleared) = [arr] := by
      simpa using ha
    simp [create_loan, hc, hl, ha2, scalarOneOrNone_one, scalarOneOrNone_nil]

/-- C7 witness: the three rejection cases at concrete databases. -/
theorem C7_witness :
    create_loan emptyDB (fixReq 20) 0 =
      (emptyDB, Except.error (ApiError.http 404 ("Customer not found"))) ∧
    create_loan { custDB with loans := [fixLoan 1 LoanStatus.ACTIVE 30 (some 1200)] } (fixReq 20) 0 =
      ({ custDB with loans := [fixLoan 1 LoanStatus.ACTIVE 30 (some 1200)] },
       Except.error (ApiError.http 400 ("Customer already has an active loan"))) ∧
    create_loan { custDB with arrears := [⟨1, 9, some 1, 1200, 100, 0, false, none⟩] } (fixReq 20) 0 =
      ({ custDB with arrears := [⟨1, 9, some 1, 1200, 100, 0, false, none⟩] },
       Except.error (ApiError.http 400 ("Customer has active arrears that must be cleared first"))) :=
  ⟨(C7_create_loan_guards emptyDB (fixReq 20) 0).1 (by decide),
   (C7_create_loan_guards _ (fixReq 20) 0).2.1 fixCustomer
     (fixLoan 1 LoanStatus.ACTIVE 30 (some 1200)) (by decide) (by decide),
   (C7_create_loan_guards _ (fixReq 20) 0).2.2 fixCustomer
     ⟨1, 9, some 1, 1200, 100, 0, false, none⟩ (by decide) (by decide) (by decide)⟩

/-- C7 counterexample: a customer holding two ACTIVE loans (reachable,
since deleting the completing installment of an old loan reopens it).
POST /loans then fails with the unhandled MultipleResultsFound exception
(HTTP 500), not with HTTP 400 as the claim states. -/
theorem C7_counterexample :
    (∃ l ∈ ({ custDB with loans := [fixLoan 1 LoanStatus.ACTIVE 30 (some 1200),
        fixLoan 2 LoanStatus.ACTIVE 40 (some 600)] } : DB).loans,
      l.customer_id = "A1" ∧ l.status = LoanStatus.ACTIVE) ∧
    create_loan { custDB with loans := [fixLoan 1 LoanStatus.ACTIVE 30 (some 1200),
        fixLoan 2 LoanStatus.ACTIVE 40 (some 600)] } (fixReq 20) 0 =
      ({ custDB with loans := [fixLoan 1 LoanStatus.ACTIVE 30 (some 1200),
          fixLoan 2 LoanStatus.ACTIVE 40 (some 600)] },
       Except.error (ApiError.pyError ("Multiple rows were found when one or none was required"))) ∧
    (create_loan { custDB with loans := [fixLoan 1 LoanStatus.ACTIVE 30 (some 1200),
        fixLoan 2 LoanStatus.ACTIVE 40 (some 600)] } (fixReq 20) 0).2 ≠
      Except.error (ApiError.http 400 ("Customer already has an active loan")) := by
  refine ⟨⟨fixLoan 1 LoanStatus.ACTIVE 30 (some 1200), by decide, by decide, by decide⟩, by decide, by decide⟩

/-- C2 (amended): after sync_overdue_state runs on a loan whose due_date is
strictly before the current date with remaining_amount > 0, the loan status
is OVERDUE (legacy ARREARS values included, since the returned status is
OVERDUE for every input status) and an uncleared arrears record for the
loan exists whose remaining_amount is within 0.01 of the loan remaining
amount: it is set exactly when the record is created or when the drift
exceeds 0.01, but an existing record within 0.01 is left untouched. -/
theorem C2_overdue_sync (db : DB) (loan : Loan) (today now : ℤ)
    (hdue : loan.due_date < today) (hrem : remainingAmount loan > 0)
    (ha : (db.arrears.filter (fun a => a.loan_id == loan.id)).length ≤ 1)
    (hc : (db.customers.filter (fun c => c.id_number == loan.customer_id)).length ≤ 1) :
    ∃ db2 ch, sync_overdue_state db loan today now =
        Except.ok (db2, { loan with status := LoanStatus.OVERDUE }, ch) ∧
      ∃ a ∈ db2.arrears, a.loan_id = loan.id ∧ a.is_cleared = false ∧
        pyAbs (a.remaining_amount - remainingAmount loan) ≤ 1/100 := by
  obtain ⟨db2, ch, heq, _, _, _, _, h5, _⟩ :=
    sync_becomes_overdue db loan today now hdue hrem ha hc
  exact ⟨db2, ch, heq, h5⟩

/-- C2 witness: a past-due loan with no arrears row yet; the sync creates
the mirroring record. -/
theorem C2_witness :
    ∃ db2 ch, sync_overdue_state
        { custDB with loans := [fixLoan 1 LoanStatus.ACTIVE 10 (some 100)] }
        (fixLoan 1 LoanStatus.ACTIVE 10 (some 100)) 20 20 =
      Except.ok (db2,
        { fixLoan 1 LoanStatus.ACTIVE 10 (some 100) with status := LoanStatus.OVERDUE }, ch) ∧
      ∃ a ∈ db2.arrears, a.loan_id = (fixLoan 1 LoanStatus.ACTIVE 10 (some 100)).id ∧
        a.is_cleared = false ∧
        pyAbs (a.remaining_amount - remainingAmount (fixLoan 1 LoanStatus.ACTIVE 10 (some 100))) ≤ 1/100 :=
  C2_overdue_sync _ _ 20 20 (by decide) (by decide) (by decide) (by decide)

/-- C2 counterexample: a past-due loan with balance 100 whose existing
uncleared arrears row holds 100.005.  The drift is at most 0.01, so the
sync leaves the row untouched: the loan is reported OVERDUE, but no
arrears record has remaining_amount exactly equal to the loan balance,
refuting the claim as stated. -/
theorem C2_counterexample :
    (fixLoan 1 LoanStatus.ACTIVE 10 (some 100)).due_date < 20 ∧
    remainingAmount (fixLoan 1 LoanStatus.ACTIVE 10 (some 100)) > 0 ∧
    sync_overdue_state C2db (fixLoan 1 LoanStatus.ACTIVE 10 (some 100)) 20 20 =
      Except.ok (C2db,
        { fixLoan 1 LoanStatus.ACTIVE 10 (some 100) with status := LoanStatus.OVERDUE }, true) ∧
    ∀ a ∈ C2db.arrears,
      a.remaining_amount ≠ remainingAmount (fixLoan 1 LoanStatus.ACTIVE 10 (some 100)) := by
  refine ⟨by norm_num [fixLoan], by norm_num [remainingAmount, fixLoan], ?_, ?_⟩
  · norm_num [sync_overdue_state, ensure_overdue_record, ensureTransform, scalarOneOrNone,
      pyAbs, remainingAmount, C2db, custDB, emptyDB, fixCustomer, fixLoan, nextId,
      clearArrearsRow, List.filter, if_false, if_true,
      (by decide : LoanStatus.ACTIVE ≠ LoanStatus.ARREARS),
      (by decide : LoanStatus.ACTIVE ≠ LoanStatus.OVERDUE)]
  · intro a ha
    simp only [C2db, custDB, emptyDB, List.mem_singleton] at ha
    subst ha
    norm_num [remainingAmount, fixLoan]

/-- C3 (amended): for a customer with exactly one ACTIVE loan that is not
overdue by schedule (so the lazy overdue sync keeps it ACTIVE), recording a
payment equal to the loan remaining amount sets remaining_amount to zero,
transitions the status to COMPLETED, and sets completed_at to the payment
timestamp. -/
theorem C3_full_payment (db : DB) (payment : PaymentCreate) (today now : ℤ)
    (cust : Customer) (loan : Loan)
    (hcust : db.customers.filter (fun c => c.id_number == payment.id_number) = [cust])
    (hactive : db.loans.filter (fun l => l.customer_id == payment.id_number &&
        l.status == LoanStatus.ACTIVE) = [loan])
    (hid : db.loans.filter (fun l => l.id == loan.id) = [loan])
    (hg : ¬(loan.due_date < today ∧ remainingAmount loan > 0))
    (ha : (db.arrears.filter (fun a => a.loan_id == loan.id)).length ≤ 1)
    (hamt : payment.amount = remainingAmount loan) :
    ∃ db2 resp, record_payment db payment today now = (db2, Except.ok resp) ∧
      db2.loans.filter (fun l => l.id == loan.id) =
        [{ loan with
            remaining_amount := some 0
            status := LoanStatus.COMPLETED
            completed_at := some now }] ∧
      resp.remaining_balance = some 0 ∧ resp.loan_status = "COMPLETED" := by
  have hstat : loan.status = LoanStatus.ACTIVE := by
    have h2 := (mem_of_filter_eq_single hactive).2
    simp only [Bool.and_eq_true, beq_iff_eq] at h2
    exact h2.2
  obtain ⟨db1, ch1, heq1, hcst1, hgua1, hlo1, hins1, harr1⟩ :=
    sync_quiet db loan today now hg (by rw [hstat]; decide) (by rw [hstat]; decide) ha
  have hz : pyMax 0 (loan.remaining_amount.getD loan.total_amount - payment.amount) = 0 := by
    rw [hamt]
    simp [remainingAmount, pyMax]
  simp only [record_payment, hcust, scalarOneOrNone_one, hactive, heq1]
  rw [if_neg (fun hne => hne hstat)]
  rw [if_neg (by rw [hamt]; exact lt_irrefl _)]
  rw [hz]
  rw [if_pos (le_refl (0:ℚ))]
  obtain ⟨db3, ch2, heq2, hcst2, hgua2, hlo2, hins2, harr2⟩ :=
    sync_quiet
      { db1 with installments :=
          db1.installments ++ [⟨nextId (db1.installments.map (fun x => x.id)), loan.id, payment.amount, now⟩] }
      { loan with
        remaining_amount := some 0
        status := LoanStatus.COMPLETED
        completed_at := some now }
      today now (by simp [remainingAmount]) (by simp) (by simp) (by exact harr1)
  simp only [heq2]
  refine ⟨_, _, rfl, ?_, ?_, ?_⟩
  · simp only [updateLoan]
    rw [hlo2]
    rw [show ({ db1 with installments :=
        db1.installments ++ [⟨nextId (db1.installments.map (fun x => x.id)), loan.id, payment.amount, now⟩] } : DB).loans = db.loans from hlo1]
    rw [filter_map_update (fun x => x.id == loan.id) _ (by simp) db.loans, hid]
    rfl
  · rfl
  · rfl

/-- C3 witness: paying the full 1200 balance of a not-yet-due ACTIVE loan. -/
theorem C3_witness :
    ∃ db2 resp, record_payment { custDB with loans := [fixLoan 1 LoanStatus.ACTIVE 30 (some 1200)] }
        ⟨"A1", 1200⟩ 10 10 = (db2, Except.ok resp) ∧
      db2.loans.filter (fun l => l.id == (fixLoan 1 LoanStatus.ACTIVE 30 (some 1200)).id) =
        [{ fixLoan 1 LoanStatus.ACTIVE 30 (some 1200) with
            remaining_amount := some 0
            status := LoanStatus.COMPLETED
            completed_at := some 10 }] ∧
      resp.remaining_balance = some 0 ∧ resp.loan_status = "COMPLETED" :=
  C3_full_payment _ ⟨"A1", 1200⟩ 10 10 fixCustomer (fixLoan 1 LoanStatus.ACTIVE 30 (some 1200))
    (by decide) (by decide) (by decide) (by norm_num [fixLoan, remainingAmount])
    (by decide) (by norm_num [fixLoan, remainingAmount])

/-- C3 counterexample: a customer with an ACTIVE loan that is already past
due (status not yet synced).  Paying exactly the remaining amount does not
complete the loan: the handler first runs the overdue sync, flips the loan
to OVERDUE, commits that, and rejects the payment with 400. -/
theorem C3_counterexample :
    (∃ l ∈ C4db.loans, l.customer_id = "A1" ∧ l.status = LoanStatus.ACTIVE ∧
      remainingAmount l = 100) ∧
    (record_payment C4db ⟨"A1", 100⟩ 20 20).2 =
      Except.error (ApiError.http 400 ("This loan is overdue. Please pay through the Overdue page.")) ∧
    (record_payment C4db ⟨"A1", 100⟩ 20 20).1.loans.map (fun l => (l.status, l.completed_at)) =
      [(LoanStatus.OVERDUE, none)] := by
  refine ⟨⟨fixLoan 1 LoanStatus.ACTIVE 10 (some 100), by decide, by decide, by decide,
    by norm_num [fixLoan, remainingAmount]⟩, ?_, ?_⟩ <;>
    norm_num [record_payment, sync_overdue_state, ensure_overdue_record, ensureTransform,
      scalarOneOrNone, pyAbs, pyMax, remainingAmount, C4db, custDB, emptyDB, fixCustomer,
      fixLoan, nextId, clearArrearsRow, updateLoan, List.filter, if_false, if_true,
      (by decide : LoanStatus.ACTIVE ≠ LoanStatus.ARREARS),
      (by decide : LoanStatus.ACTIVE ≠ LoanStatus.OVERDUE),
      (by decide : LoanStatus.OVERDUE ≠ LoanStatus.ACTIVE)]

/-- C4 (amended): in the strict payment path, for a customer with exactly
one ACTIVE loan that is not overdue by schedule, a payment strictly greater
than the remaining amount fails with HTTP 400 and the committed database is
exactly the input database: no installment, balance or status change is
persisted.  (For an ACTIVE loan already past due the request also fails
with 400, but the lazy overdue sync commits a status flip to OVERDUE and an
arrears record first, see the counterexample.) -/
theorem C4_overpayment (db : DB) (payment : PaymentCreate) (today now : ℤ)
    (cust : Customer) (loan : Loan)
    (hcust : db.customers.filter (fun c => c.id_number == payment.id_number) = [cust])
    (hactive : db.loans.filter (fun l => l.customer_id == payment.id_number &&
        l.status == LoanStatus.ACTIVE) = [loan])
    (hg : ¬(loan.due_date < today ∧ remainingAmount loan > 0))
    (ha : (db.arrears.filter (fun a => a.loan_id == loan.id)).length ≤ 1)
    (hamt : payment.amount > remainingAmount loan) :
    record_payment db payment today now =
      (db, Except.error (ApiError.http 400 ("Payment amount cannot exceed remaining balance"))) := by
  have hstat : loan.status = LoanStatus.ACTIVE := by
    have h2 := (mem_of_filter_eq_single hactive).2
    simp only [Bool.and_eq_true, beq_iff_eq] at h2
    exact h2.2
  obtain ⟨db1, ch1, heq1, hcst1, hgua1, hlo1, hins1, harr1⟩ :=
    sync_quiet db loan today now hg (by rw [hstat]; decide) (by rw [hstat]; decide) ha
  simp only [record_payment, hcust, scalarOneOrNone_one, hactive, heq1]
  rw [if_neg (fun hne => hne hstat)]
  rw [if_pos (show payment.amount > loan.remaining_amount.getD loan.total_amount from hamt)]

/-- C4 witness: paying 150 against a remaining balance of 100 on a
not-yet-due ACTIVE loan is rejected with no committed change. -/
theorem C4_witness :
    record_payment { custDB with loans := [fixLoan 1 LoanStatus.ACTIVE 30 (some 100)] }
        ⟨"A1", 150⟩ 10 10 =
      ({ custDB with loans := [fixLoan 1 LoanStatus.ACTIVE 30 (some 100)] },
       Except.error (ApiError.http 400 ("Payment amount cannot exceed remaining balance"))) :=
  C4_overpayment _ ⟨"A1", 150⟩ 10 10 fixCustomer (fixLoan 1 LoanStatus.ACTIVE 30 (some 100))
    (by decide) (by decide) (by norm_num [fixLoan, remainingAmount]) (by decide)
    (by norm_num [fixLoan, remainingAmount])

/-- C4 counterexample: for a stale-ACTIVE loan already past its due date,
the over-payment request also fails with 400, but the committed database is
not unchanged: the loan status is flipped to OVERDUE and an arrears record
is created by the lazy sync before the request is rejected. -/
theorem C4_counterexample :
    (∃ l ∈ C4db.loans, l.customer_id = "A1" ∧ l.status = LoanStatus.ACTIVE ∧
      (150:ℚ) > remainingAmount l) ∧
    (record_payment C4db ⟨"A1", 150⟩ 20 20).2 =
      Except.error (ApiError.http 400 ("This loan is overdue. Please pay through the Overdue page.")) ∧
    (record_payment C4db ⟨"A1", 150⟩ 20 20).1.loans.map (fun l => l.status) =
      [LoanStatus.OVERDUE] ∧
    (record_payment C4db ⟨"A1", 150⟩ 20 20).1 ≠ C4db := by
  refine ⟨⟨fixLoan 1 LoanStatus.ACTIVE 10 (some 100), by decide, by decide, by decide,
    by norm_num [fixLoan, remainingAmount]⟩, ?_, ?_, ?_⟩ <;>
    norm_num [record_payment, sync_overdue_state, ensure_overdue_record, ensureTransform,
      scalarOneOrNone, pyAbs, pyMax, remainingAmount, C4db, custDB, emptyDB, fixCustomer,
      fixLoan, nextId, clearArrearsRow, updateLoan, List.filter, if_false, if_true,
      (by decide : LoanStatus.ACTIVE ≠ LoanStatus.ARREARS),
      (by decide : LoanStatus.ACTIVE ≠ LoanStatus.OVERDUE),
      (by decide : LoanStatus.OVERDUE ≠ LoanStatus.ACTIVE)]

/-- Specification of the installment-edit endpoint: the installment amount
is updated, the loan balance is recomputed as max(0, total - sum of the
updated installments), and the status is re-derived, with completed_at
cleared whenever the loan is reopened. -/
theorem update_installment_spec (db : DB) (instId : Nat) (body : InstallmentUpdate)
    (today now : ℤ) (inst : Installment) (loan : Loan) (S : ℚ)
    (hpos : 0 < body.amount)
    (hinst : db.installments.filter (fun i => i.id == instId) = [inst])
    (hloan : db.loans.filter (fun l => l.id == inst.loan_id) = [loan])
    (ha : (db.arrears.filter (fun a => a.loan_id == loan.id)).length ≤ 1)
    (hc : (db.customers.filter (fun c => c.id_number == loan.customer_id)).length ≤ 1)
    (hS : S = paidSum (db.installments.map
        (fun x => if x.id == instId then { x with amount := body.amount } else x)) loan.id) :
    ∃ db2 resp, update_installment_amount db instId body today now = (db2, Except.ok resp) ∧
      db2.installments = db.installments.map
        (fun x => if x.id == instId then { x with amount := body.amount } else x) ∧
      resp.remaining_balance = some (pyMax 0 (loan.total_amount - S)) ∧
      (loan.total_amount ≤ S →
        db2.loans.filter (fun l => l.id == loan.id) =
          [{ loan with
              remaining_amount := some (pyMax 0 (loan.total_amount - S))
              status := LoanStatus.COMPLETED
              completed_at := some now }]) ∧
      (S < loan.total_amount → loan.due_date < today →
        db2.loans.filter (fun l => l.id == loan.id) =
          [{ loan with
              remaining_amount := some (pyMax 0 (loan.total_amount - S))
              completed_at := none
              status := LoanStatus.OVERDUE }]) ∧
      (S < loan.total_amount → ¬(loan.due_date < today) →
        db2.loans.filter (fun l => l.id == loan.id) =
          [{ loan with
              remaining_amount := some (pyMax 0 (loan.total_amount - S))
              completed_at := none
              status := LoanStatus.ACTIVE }]) := by
  have hli : inst.loan_id = loan.id := by
    have h2 := (mem_of_filter_eq_single hloan).2
    simp only [beq_iff_eq] at h2
    exact h2.symm
  rw [hli] at hloan
  subst hS
  simp only [update_installment_amount]
  rw [if_neg (not_le.mpr hpos)]
  simp only [hinst, scalarOneOrNone_one, hli, hloan]
  by_cases hts : loan.total_amount ≤ paidSum (db.installments.map
      (fun x => if x.id == instId then { x with amount := body.amount } else x)) loan.id
  · have h0 : pyMax 0 (loan.total_amount - paidSum (db.installments.map
        (fun x => if x.id == instId then { x with amount := body.amount } else x)) loan.id) = 0 := by
      rw [pyMax_eq_max]
      exact max_eq_left (sub_nonpos.mpr hts)
    rw [h0]
    rw [if_pos (le_refl (0:ℚ))]
    obtain ⟨db3, ch2, heq2, hcst2, hgua2, hlo2, hins2, harr2⟩ :=
      sync_quiet
        { db with installments := db.installments.map (fun x => if x.id == instId then { x with amount := body.amount } else x) }
        { loan with remaining_amount := some 0, status := LoanStatus.COMPLETED, completed_at := some now }
        today now (by simp [remainingAmount]) (by simp) (by simp) (by exact ha)
    simp only [heq2]
    refine ⟨_, _, rfl, ?_, ?_, ?_, ?_, ?_⟩
    · exact hins2
    · rfl
    · intro hts2
      simp only [updateLoan]
      rw [hlo2]
      rw [show ({ db with installments := db.installments.map (fun x => if x.id == instId then { x with amount := body.amount } else x) } : DB).loans = db.loans from rfl]
      rw [filter_map_update (fun x => x.id == loan.id) _ (by simp) db.loans]
      rw [hloan]
      rfl
    · intro h1 _
      exact absurd hts (not_le.mpr h1)
    · intro h1 _
      exact absurd hts (not_le.mpr h1)
  · have hpos2 : 0 < loan.total_amount - paidSum (db.installments.map
        (fun x => if x.id == instId then { x with amount := body.amount } else x)) loan.id :=
      sub_pos.mpr (not_le.mp hts)
    rw [if_neg (not_le.mpr (by rw [pyMax_eq_max]; exact lt_max_of_lt_right hpos2))]
    by_cases hdue : loan.due_date < today
    · rw [if_pos hdue]
      obtain ⟨db3, ch2, heq2, hcst2, hgua2, hlo2, hins2, h5, harr2⟩ :=
        sync_becomes_overdue
          { db with installments := db.installments.map (fun x => if x.id == instId then { x with amount := body.amount } else x) }
          { loan with
            remaining_amount := some (pyMax 0 (loan.total_amount - paidSum (db.installments.map
              (fun x => if x.id == instId then { x with amount := body.amount } else x)) loan.id))
            completed_at := none
            status := LoanStatus.OVERDUE }
          today now (by exact hdue)
          (by simp only [remainingAmount, Option.getD_some, pyMax_eq_max]
              exact lt_max_of_lt_right hpos2)
          (by exact ha) (by exact hc)
      simp only [heq2]
      refine ⟨_, _, rfl, ?_, ?_, ?_, ?_, ?_⟩
      · exact hins2
      · rfl
      · intro hts2
        exact absurd hts2 hts
      · intro _ _
        simp only [updateLoan]
        rw [hlo2]
        rw [show ({ db with installments := db.installments.map (fun x => if x.id == instId then { x with amount := body.amount } else x) } : DB).loans = db.loans from rfl]
        rw [filter_map_update (fun x => x.id == loan.id) _ (by simp) db.loans]
        rw [hloan]
        rfl
      · intro _ hnd
        exact absurd hdue hnd
    · rw [if_neg hdue]
      obtain ⟨db3, ch2, heq2, hcst2, hgua2, hlo2, hins2, harr2⟩ :=
        sync_quiet
          { db with installments := db.installments.map (fun x => if x.id == instId then { x with amount := body.amount } else x) }
          { loan with
            remaining_amount := some (pyMax 0 (loan.total_amount - paidSum (db.installments.map
              (fun x => if x.id == instId then { x with amount := body.amount } else x)) loan.id))
            completed_at := none
            status := LoanStatus.ACTIVE }
          today now (fun h => hdue h.1) (by simp) (by simp) (by exact ha)
      simp only [heq2]
      refine ⟨_, _, rfl, ?_, ?_, ?_, ?_, ?_⟩
      · exact hins2
      · rfl
      · intro hts2
        exact absurd hts2 hts
      · intro _ hd
        exact absurd hd hdue
      · intro _ _
        simp only [updateLoan]
        rw [hlo2]
        rw [show ({ db with installments := db.installments.map (fun x => if x.id == instId then { x with amount := body.amount } else x) } : DB).loans = db.loans from rfl]
        rw [filter_map_update (fun x => x.id == loan.id) _ (by simp) db.loans]
        rw [hloan]
        rfl

/-- Specification of the installment-delete endpoint: the installment is
removed, the loan balance is recomputed as max(0, total - sum of the
remaining installments), and the status is re-derived, with completed_at
cleared whenever the loan is reopened. -/
theorem delete_installment_spec (db : DB) (instId : Nat)
    (today now : ℤ) (inst : Installment) (loan : Loan) (S : ℚ)
    (hinst : db.installments.filter (fun i => i.id == instId) = [inst])
    (hloan : db.loans.filter (fun l => l.id == inst.loan_id) = [loan])
    (ha : (db.arrears.filter (fun a => a.loan_id == loan.id)).length ≤ 1)
    (hc : (db.customers.filter (fun c => c.id_number == loan.customer_id)).length ≤ 1)
    (hS : S = paidSum (db.installments.filter (fun x => !(x.id == instId))) loan.id) :
    ∃ db2 resp, delete_installment db instId today now = (db2, Except.ok resp) ∧
      db2.installments = db.installments.filter (fun x => !(x.id == instId)) ∧
      resp.remaining_balance = some (pyMax 0 (loan.total_amount - S)) ∧
      (loan.total_amount ≤ S →
        db2.loans.filter (fun l => l.id == loan.id) =
          [{ loan with
              remaining_amount := some (pyMax 0 (loan.total_amount - S))
              status := LoanStatus.COMPLETED
              completed_at := some now }]) ∧
      (S < loan.total_amount → loan.due_date < today →
        db2.loans.filter (fun l => l.id == loan.id) =
          [{ loan with
              remaining_amount := some (pyMax 0 (loan.total_amount - S))
              completed_at := none
              status := LoanStatus.OVERDUE }]) ∧
      (S < loan.total_amount → ¬(loan.due_date < today) →
        db2.loans.filter (fun l => l.id == loan.id) =
          [{ loan with
              remaining_amount := some (pyMax 0 (loan.total_amount - S))
              completed_at := none
              status := LoanStatus.ACTIVE }]) := by
  have hli : inst.loan_id = loan.id := by
    have h2 := (mem_of_filter_eq_single hloan).2
    simp only [beq_iff_eq] at h2
    exact h2.symm
  rw [hli] at hloan
  subst hS
  simp only [delete_installment]
  simp only [hinst, scalarOneOrNone_one, hli, hloan]
  by_cases hts : loan.total_amount ≤
      paidSum (db.installments.filter (fun x => !(x.id == instId))) loan.id
  · have h0 : pyMax 0 (loan.total_amount -
        paidSum (db.installments.filter (fun x => !(x.id == instId))) loan.id) = 0 := by
      rw [pyMax_eq_max]
      exact max_eq_left (sub_nonpos.mpr hts)
    rw [h0]
    rw [if_pos (le_refl (0:ℚ))]
    obtain ⟨db3, ch2, heq2, hcst2, hgua2, hlo2, hins2, harr2⟩ :=
      sync_quiet
        { db with installments := db.installments.filter (fun x => !(x.id == instId)) }
        { loan with remaining_amount := some 0, status := LoanStatus.COMPLETED, completed_at := some now }
        today now (by simp [remainingAmount]) (by simp) (by simp) (by exact ha)
    simp only [heq2]
    refine ⟨_, _, rfl, ?_, ?_, ?_, ?_, ?_⟩
    · exact hins2
    · rfl
    · intro hts2
      simp only [updateLoan]
      rw [hlo2]
      rw [show ({ db with installments := db.installments.filter (fun x => !(x.id == instId)) } : DB).loans = db.loans from rfl]
      rw [filter_map_update (fun x => x.id == loan.id) _ (by simp) db.loans]
      rw [hloan]
      rfl
    · intro h1 _
      exact absurd hts (not_le.mpr h1)
    · intro h1 _
      exact absurd hts (not_le.mpr h1)
  · have hpos2 : 0 < loan.total_amount -
        paidSum (db.installments.filter (fun x => !(x.id == instId))) loan.id :=
      sub_pos.mpr (not_le.mp hts)
    rw [if_neg (not_le.mpr (by rw [pyMax_eq_max]; exact lt_max_of_lt_right hpos2))]
    by_cases hdue : loan.due_date < today
    · rw [if_pos hdue]
      obtain ⟨db3, ch2, heq2, hcst2, hgua2, hlo2, hins2, h5, harr2⟩ :=
        sync_becomes_overdue
          { db with installments := db.installments.filter (fun x => !(x.id == instId)) }
          { loan with
            remaining_amount := some (pyMax 0 (loan.total_amount -
              paidSum (db.installments.filter (fun x => !(x.id == instId))) loan.id))
            completed_at := none
            status := LoanStatus.OVERDUE }
          today now (by exact hdue)
          (by simp only [remainingAmount, Option.getD_some, pyMax_eq_max]
              exact lt_max_of_lt_right hpos2)
          (by exact ha) (by exact hc)
      simp only [heq2]
      refine ⟨_, _, rfl, ?_, ?_, ?_, ?_, ?_⟩
      · exact hins2
      · rfl
      · intro hts2
        exact absurd hts2 hts
      · intro _ _
        simp only [updateLoan]
        rw [hlo2]
        rw [show ({ db with installments := db.installments.filter (fun x => !(x.id == instId)) } : DB).loans = db.loans from rfl]
        rw [filter_map_update (fun x => x.id == loan.id) _ (by simp) db.loans]
        rw [hloan]
        rfl
      · intro _ hnd
        exact absurd hdue hnd
    · rw [if_neg hdue]
      obtain ⟨db3, ch2, heq2, hcst2, hgua2, hlo2, hins2, harr2⟩ :=
        sync_quiet
          { db with installments := db.installments.filter (fun x => !(x.id == instId)) }
          { loan with
            remaining_amount := some (pyMax 0 (loan.total_amount -
              paidSum (db.installments.filter (fun x => !(x.id == instId))) loan.id))
            completed_at := none
            status := LoanStatus.ACTIVE }
          today now (fun h => hdue h.1) (by simp) (by simp) (by exact ha)
      simp only [heq2]
      refine ⟨_, _, rfl, ?_, ?_, ?_, ?_, ?_⟩
      · exact hins2
      · rfl
      · intro hts2
        exact absurd hts2 hts
      · intro _ hd
        exact absurd hd hdue
      · intro _ _
        simp only [updateLoan]
        rw [hlo2]
        rw [show ({ db with installments := db.installments.filter (fun x => !(x.id == instId)) } : DB).loans = db.loans from rfl]
        rw [filter_map_update (fun x => x.id == loan.id) _ (by simp) db.loans]
        rw [hloan]
        rfl

/-- C5 (amended): for every installment edit or deletion, the loan
remaining_amount is recomputed as max(0, total_amount minus the sum of the
remaining installments) - the subtraction is clamped at zero, unlike the
claim as stated - and the status is re-derived: COMPLETED when the
recomputed difference is at most zero, otherwise OVERDUE when the due date
is past and ACTIVE when it is not, with completed_at cleared whenever the
loan is reopened. -/
theorem C5_installment_recompute :
    (∀ db instId body today now inst loan S,
      0 < (body : InstallmentUpdate).amount →
      db.installments.filter (fun i => i.id == instId) = [inst] →
      db.loans.filter (fun l => l.id == inst.loan_id) = [loan] →
      (db.arrears.filter (fun a => a.loan_id == loan.id)).length ≤ 1 →
      (db.customers.filter (fun c => c.id_number == loan.customer_id)).length ≤ 1 →
      S = paidSum (db.installments.map
        (fun x => if x.id == instId then { x with amount := body.amount } else x)) loan.id →
      ∃ db2 resp, update_installment_amount db instId body today now = (db2, Except.ok resp) ∧
        db2.installments = db.installments.map
          (fun x => if x.id == instId then { x with amount := body.amount } else x) ∧
        resp.remaining_balance = some (pyMax 0 (loan.total_amount - S)) ∧
        (loan.total_amount ≤ S →
          db2.loans.filter (fun l => l.id == loan.id) =
            [{ loan with
                remaining_amount := some (pyMax 0 (loan.total_amount - S))
                status := LoanStatus.COMPLETED
                completed_at := some now }]) ∧
        (S < loan.total_amount → loan.due_date < today →
          db2.loans.filter (fun l => l.id == loan.id) =
            [{ loan with
                remaining_amount := some (pyMax 0 (loan.total_amount - S))
                completed_at := none
                status := LoanStatus.OVERDUE }]) ∧
        (S < loan.total_amount → ¬(loan.due_date < today) →
          db2.loans.filter (fun l => l.id == loan.id) =
            [{ loan with
                remaining_amount := some (pyMax 0 (loan.total_amount - S))
                completed_at := none
                status := LoanStatus.ACTIVE }])) ∧
    (∀ db instId today now inst loan S,
      db.installments.filter (fun i => i.id == instId) = [inst] →
      db.loans.filter (fun l => l.id == inst.loan_id) = [loan] →
      (db.arrears.filter (fun a => a.loan_id == loan.id)).length ≤ 1 →
      (db.customers.filter (fun c => c.id_number == loan.customer_id)).length ≤ 1 →
      S = paidSum (db.installments.filter (fun x => !(x.id == instId))) loan.id →
      ∃ db2 resp, delete_installment db instId today now = (db2, Except.ok resp) ∧
        db2.installments = db.installments.filter (fun x => !(x.id == instId)) ∧
        resp.remaining_balance = some (pyMax 0 (loan.total_amount - S)) ∧
        (loan.total_amount ≤ S →
          db2.loans.filter (fun l => l.id == loan.id) =
            [{ loan with
                remaining_amount := some (pyMax 0 (loan.total_amount - S))
                status := LoanStatus.COMPLETED
                completed_at := some now }]) ∧
        (S < loan.total_amount → loan.due_date < today →
          db2.loans.filter (fun l => l.id == loan.id) =
            [{ loan with
                remaining_amount := some (pyMax 0 (loan.total_amount - S))
                completed_at := none
                status := LoanStatus.OVERDUE }]) ∧
        (S < loan.total_amount → ¬(loan.due_date < today) →
          db2.loans.filter (fun l => l.id == loan.id) =
            [{ loan with
                remaining_amount := some (pyMax 0 (loan.total_amount - S))
                completed_at := none
                status := LoanStatus.ACTIVE }])) :=
  ⟨fun db instId body today now inst loan S hpos hinst hloan ha hc hS =>
    update_installment_spec db instId body today now inst loan S hpos hinst hloan ha hc hS,
   fun db instId today now inst loan S hinst hloan ha hc hS =>
    delete_installment_spec db instId today now inst loan S hinst hloan ha hc hS⟩

/-- C5 witness: editing the 200 installment of an ACTIVE loan to 300, and
deleting it, at concrete state. -/
theorem C5_witness :
    (∃ db2 resp, update_installment_amount C5db 1 ⟨300⟩ 10 10 = (db2, Except.ok resp) ∧
      db2.installments = C5db.installments.map
        (fun x => if x.id == 1 then { x with amount := (300:ℚ) } else x) ∧
      resp.remaining_balance = some (pyMax 0 ((fixLoan 1 LoanStatus.ACTIVE 30 (some 1000)).total_amount -
        paidSum (C5db.installments.map (fun x => if x.id == 1 then { x with amount := (300:ℚ) } else x)) 1)) ∧
      ((fixLoan 1 LoanStatus.ACTIVE 30 (some 1000)).total_amount ≤
          paidSum (C5db.installments.map (fun x => if x.id == 1 then { x with amount := (300:ℚ) } else x)) 1 →
        db2.loans.filter (fun l => l.id == 1) =
          [{ fixLoan 1 LoanStatus.ACTIVE 30 (some 1000) with
              remaining_amount := some (pyMax 0 ((fixLoan 1 LoanStatus.ACTIVE 30 (some 1000)).total_amount -
                paidSum (C5db.installments.map (fun x => if x.id == 1 then { x with amount := (300:ℚ) } else x)) 1))
              status := LoanStatus.COMPLETED
              completed_at := some 10 }]) ∧
      (paidSum (C5db.installments.map (fun x => if x.id == 1 then { x with amount := (300:ℚ) } else x)) 1 <
          (fixLoan 1 LoanStatus.ACTIVE 30 (some 1000)).total_amount →
        (fixLoan 1 LoanStatus.ACTIVE 30 (some 1000)).due_date < 10 →
        db2.loans.filter (fun l => l.id == 1) =
          [{ fixLoan 1 LoanStatus.ACTIVE 30 (some 1000) with
              remaining_amount := some (pyMax 0 ((fixLoan 1 LoanStatus.ACTIVE 30 (some 1000)).total_amount -
                paidSum (C5db.installments.map (fun x => if x.id == 1 then { x with amount := (300:ℚ) } else x)) 1))
              completed_at := none
              status := LoanStatus.OVERDUE }]) ∧
      (paidSum (C5db.installments.map (fun x => if x.id == 1 then { x with amount := (300:ℚ) } else x)) 1 <
          (fixLoan 1 LoanStatus.ACTIVE 30 (some 1000)).total_amount →
        ¬((fixLoan 1 LoanStatus.ACTIVE 30 (some 1000)).due_date < 10) →
        db2.loans.filter (fun l => l.id == 1) =
          [{ fixLoan 1 LoanStatus.ACTIVE 30 (some 1000) with
              remaining_amount := some (pyMax 0 ((fixLoan 1 LoanStatus.ACTIVE 30 (some 1000)).total_amount -
                paidSum (C5db.installments.map (fun x => if x.id == 1 then { x with amount := (300:ℚ) } else x)) 1))
              completed_at := none
              status := LoanStatus.ACTIVE }])) ∧
    (∃ db2 resp, delete_installment C5db 1 10 10 = (db2, Except.ok resp) ∧
      db2.installments = C5db.installments.filter (fun x => !(x.id == 1)) ∧
      resp.remaining_balance = some (pyMax 0 ((fixLoan 1 LoanStatus.ACTIVE 30 (some 1000)).total_amount -
        paidSum (C5db.installments.filter (fun x => !(x.id == 1))) 1)) ∧
      ((fixLoan 1 LoanStatus.ACTIVE 30 (some 1000)).total_amount ≤
          paidSum (C5db.installments.filter (fun x => !(x.id == 1))) 1 →
        db2.loans.filter (fun l => l.id == 1) =
          [{ fixLoan 1 LoanStatus.ACTIVE 30 (some 1000) with
              remaining_amount := some (pyMax 0 ((fixLoan 1 LoanStatus.ACTIVE 30 (some 1000)).total_amount -
                paidSum (C5db.installments.filter (fun x => !(x.id == 1))) 1))
              status := LoanStatus.COMPLETED
              completed_at := some 10 }]) ∧
      (paidSum (C5db.installments.filter (fun x => !(x.id == 1))) 1 <
          (fixLoan 1 LoanStatus.ACTIVE 30 (some 1000)).total_amount →
        (fixLoan 1 LoanStatus.ACTIVE 30 (some 1000)).due_date < 10 →
        db2.loans.filter (fun l => l.id == 1) =
          [{ fixLoan 1 LoanStatus.ACTIVE 30 (some 1000) with
              remaining_amount := some (pyMax 0 ((fixLoan 1 LoanStatus.ACTIVE 30 (some 1000)).total_amount -
                paidSum (C5db.installments.filter (fun x => !(x.id == 1))) 1))
              completed_at := none
              status := LoanStatus.OVERDUE }]) ∧
      (paidSum (C5db.installments.filter (fun x => !(x.id == 1))) 1 <
          (fixLoan 1 LoanStatus.ACTIVE 30 (some 1000)).total_amount →
        ¬((fixLoan 1 LoanStatus.ACTIVE 30 (some 1000)).due_date < 10) →
        db2.loans.filter (fun l => l.id == 1) =
          [{ fixLoan 1 LoanStatus.ACTIVE 30 (some 1000) with
              remaining_amount := some (pyMax 0 ((fixLoan 1 LoanStatus.ACTIVE 30 (some 1000)).total_amount -
                paidSum (C5db.installments.filter (fun x => !(x.id == 1))) 1))
              completed_at := none
              status := LoanStatus.ACTIVE }])) :=
  ⟨C5_installment_recompute.1 C5db 1 ⟨300⟩ 10 10 ⟨1, 1, 200, 5⟩
      (fixLoan 1 LoanStatus.ACTIVE 30 (some 1000)) _
      (by norm_num) (by decide) (by decide) (by decide) (by decide) rfl,
   C5_installment_recompute.2 C5db 1 10 10 ⟨1, 1, 200, 5⟩
      (fixLoan 1 LoanStatus.ACTIVE 30 (some 1000)) _
      (by decide) (by decide) (by decide) (by decide) rfl⟩

/-- C5 counterexample: editing the single 1200 installment of a fully paid
1200 loan up to 1500.  The recomputed difference total - sum is -300, but
the stored remaining_amount is clamped to 0, refuting the unclamped
recomputation stated by the claim. -/
theorem C5_counterexample :
    (update_installment_amount C5db2 1 ⟨1500⟩ 10 10).2 =
      Except.ok ⟨"Installment updated successfully", 1, 1500, some 0, "COMPLETED"⟩ ∧
    (update_installment_amount C5db2 1 ⟨1500⟩ 10 10).1.loans.map (fun l => l.remaining_amount) =
      [some 0] ∧
    (fixLoan 1 LoanStatus.COMPLETED 30 (some 0)).total_amount - (1500:ℚ) = -300 ∧
    some (0:ℚ) ≠ some (-300:ℚ) := by
  refine ⟨?_, ?_, by norm_num [fixLoan], by norm_num⟩ <;>
    norm_num [update_installment_amount, sync_overdue_state, ensure_overdue_record,
      ensureTransform, scalarOneOrNone, pyAbs, pyMax, remainingAmount, paidSum,
      C5db2, custDB, emptyDB, fixCustomer, fixLoan, nextId, clearArrearsRow, updateLoan,
      LoanStatus.value, List.filter, if_false, if_true,
      (by decide : LoanStatus.COMPLETED ≠ LoanStatus.ARREARS),
      (by decide : LoanStatus.COMPLETED ≠ LoanStatus.OVERDUE)]

/-- pyMax 0 clamps are nonnegative. -/
theorem pyMax_zero_nonneg (x : ℚ) : 0 ≤ pyMax 0 x := by
  rw [pyMax_eq_max]
  exact le_max_left 0 x

/-- Loan nonnegativity survives a commit of a loan with nonnegative
remaining amount. -/
theorem nonneg_updateLoan (db : DB) (l : Loan)
    (hL : ∀ x ∈ db.loans, 0 ≤ x.remaining_amount.getD 0)
    (hl : 0 ≤ l.remaining_amount.getD 0) :
    ∀ x ∈ (updateLoan db l).loans, 0 ≤ x.remaining_amount.getD 0 := by
  intro x hx
  simp only [updateLoan] at hx
  obtain ⟨y, hy, rfl⟩ := List.mem_map.mp hx
  split
  · exact hl
  · exact hL y hy

/-- Arrears nonnegativity survives a commit of an arrears row with
nonnegative remaining amount. -/
theorem nonneg_updateArrears (db : DB) (a : Arrears)
    (hA : ∀ x ∈ db.arrears, 0 ≤ x.remaining_amount)
    (ha2 : 0 ≤ a.remaining_amount) :
    ∀ x ∈ (updateArrearsById db a).arrears, 0 ≤ x.remaining_amount := by
  intro x hx
  simp only [updateArrearsById] at hx
  obtain ⟨y, hy, rfl⟩ := List.mem_map.mp hx
  split
  · exact ha2
  · exact hA y hy

/-- _ensure_overdue_record keeps arrears amounts nonnegative when the
mirrored amount is nonnegative, and never touches the loans table. -/
theorem ensure_nonneg (db : DB) (loan : Loan) (remaining : ℚ) (today : ℤ)
    (db2 : DB) (ch : Bool)
    (h : ensure_overdue_record db loan remaining today = Except.ok (db2, ch))
    (hrem : 0 ≤ remaining)
    (hA : ∀ x ∈ db.arrears, 0 ≤ x.remaining_amount) :
    db2.loans = db.loans ∧ db2.customers = db.customers ∧
    db2.installments = db.installments ∧
    ∀ x ∈ db2.arrears, 0 ≤ x.remaining_amount := by
  unfold ensure_overdue_record at h
  match harr : db.arrears.filter (fun a => a.loan_id == loan.id) with
  | [] =>
    rw [harr] at h
    simp only [scalarOneOrNone] at h
    match hcf : db.customers.filter (fun c => c.id_number == loan.customer_id) with
    | [] =>
      rw [hcf] at h
      simp only [scalarOneOrNone, Except.ok.injEq, Prod.mk.injEq] at h
      obtain ⟨h1, h2⟩ := h
      subst h1
      refine ⟨rfl, rfl, rfl, ?_⟩
      intro x hx
      rcases List.mem_append.mp hx with hx2 | hx2
      · exact hA x hx2
      · rw [List.mem_singleton.mp hx2]
        exact hrem
    | [c] =>
      rw [hcf] at h
      simp only [scalarOneOrNone, Except.ok.injEq, Prod.mk.injEq] at h
      obtain ⟨h1, h2⟩ := h
      subst h1
      refine ⟨rfl, rfl, rfl, ?_⟩
      intro x hx
      rcases List.mem_append.mp hx with hx2 | hx2
      · exact hA x hx2
      · rw [List.mem_singleton.mp hx2]
        exact hrem
    | c :: d :: t =>
      rw [hcf] at h
      simp only [scalarOneOrNone] at h
      exact Except.noConfusion h
  | [a] =>
    rw [harr] at h
    simp only [scalarOneOrNone, Except.ok.injEq, Prod.mk.injEq] at h
    obtain ⟨h1, h2⟩ := h
    subst h1
    refine ⟨rfl, rfl, rfl, ?_⟩
    intro x hx
    obtain ⟨y, hy, rfl⟩ := List.mem_map.mp hx
    by_cases hp : (y.loan_id == loan.id) = true
    · simp only [hp, if_true]
      rcases ensureTransform_rem_cases remaining y with he | he
      · rw [he]
        exact hrem
      · rw [he]
        exact hA y hy
    · simp only [Bool.not_eq_true] at hp
      simp only [hp, Bool.false_eq_true, if_false]
      exact hA y hy
  | a :: b :: t =>
    rw [harr] at h
    simp only [scalarOneOrNone] at h
    exact Except.noConfusion h

/-- Clearing a row (under any guard) keeps its amount nonnegative. -/
theorem clear_ite_nonneg (p : Prop) [Decidable p] (now : ℤ) (y : Arrears)
    (hy : 0 ≤ y.remaining_amount) :
    0 ≤ (if p then clearArrearsRow now y else y).remaining_amount := by
  split
  · norm_num [clearArrearsRow]
  · exact hy

/-- sync_overdue_state touches only the arrears table, keeps arrears
amounts nonnegative, and never changes the loan remaining amount. -/
theorem sync_nonneg (db : DB) (loan : Loan) (today now : ℤ) (db2 : DB) (l2 : Loan) (c : Bool)
    (h : sync_overdue_state db loan today now = Except.ok (db2, l2, c))
    (hA : ∀ x ∈ db.arrears, 0 ≤ x.remaining_amount) :
    db2.loans = db.loans ∧ db2.customers = db.customers ∧ db2.installments = db.installments ∧
    (∀ x ∈ db2.arrears, 0 ≤ x.remaining_amount) ∧
    l2.remaining_amount = loan.remaining_amount := by
  obtain ⟨i, cid, gid, amt, rate, tot, rem, sd, dd, st, ca⟩ := loan
  cases st <;>
    (simp only [sync_overdue_state, remainingAmount, beq_ACTIVE_ARREARS, beq_COMPLETED_ARREARS,
       beq_OVERDUE_ARREARS, beq_ARREARS_ARREARS, beq_ACTIVE_OVERDUE, beq_COMPLETED_OVERDUE,
       beq_OVERDUE_OVERDUE, beq_ARREARS_OVERDUE, Bool.false_and, Bool.true_and,
       Bool.false_eq_true, if_true, if_false, ite_true, ite_false] at h
     split at h
     · rename_i hg
       split at h
       · exact Except.noConfusion h
       · rename_i db2x c3 heqE
         simp only [Except.ok.injEq, Prod.mk.injEq] at h
         obtain ⟨h1, h2, h3⟩ := h
         subst h1
         subst h2
         obtain ⟨e1, e2, e3, e4⟩ := ensure_nonneg _ _ _ _ _ _ heqE (le_of_lt hg.2) hA
         exact ⟨e1, e2, e3, e4, rfl⟩
     · rename_i hg
       split at h
       · exact Except.noConfusion h
       · simp only [Except.ok.injEq, Prod.mk.injEq] at h
         obtain ⟨h1, h2, h3⟩ := h
         subst h1
         subst h2
         refine ⟨rfl, rfl, rfl, hA, ?_⟩
         first
         | rfl
         | (split <;> rfl)
       · split at h
         · simp only [Except.ok.injEq, Prod.mk.injEq] at h
           obtain ⟨h1, h2, h3⟩ := h
           subst h1
           subst h2
           refine ⟨rfl, rfl, rfl, ?_, ?_⟩
           · intro x hx
             obtain ⟨y, hy, rfl⟩ := List.mem_map.mp hx
             exact clear_ite_nonneg _ now y (hA y hy)
           · first
             | rfl
             | (split <;> rfl)
         · simp only [Except.ok.injEq, Prod.mk.injEq] at h
           obtain ⟨h1, h2, h3⟩ := h
           subst h1
           subst h2
           refine ⟨rfl, rfl, rfl, hA, ?_⟩
           first
           | rfl
           | (split <;> rfl))

/-- clear_arrears keeps every stored remaining amount nonnegative. -/
theorem nonneg_clear_arrears (db : DB) (arrearsId : Nat) (now : ℤ)
    (h : dbNonneg db) : dbNonneg (clear_arrears db arrearsId now).1 := by
  obtain ⟨hL, hA⟩ := h
  simp only [clear_arrears]
  split
  · exact ⟨hL, hA⟩
  · exact ⟨hL, hA⟩
  · split
    · exact ⟨hL, hA⟩
    · exact ⟨hL, nonneg_updateArrears db _ hA (le_refl 0)⟩
    · split
      · refine ⟨nonneg_updateLoan _ _ hL (le_refl 0), ?_⟩
        exact nonneg_updateArrears db _ hA (le_refl 0)
      · exact ⟨hL, nonneg_updateArrears db _ hA (le_refl 0)⟩

/-- pay_arrears keeps every stored remaining amount nonnegative. -/
theorem nonneg_pay_arrears (db : DB) (arrearsId : Nat) (body : ArrearsPayment)
    (now : ℤ) (h : dbNonneg db) : dbNonneg (pay_arrears db arrearsId body now).1 := by
  obtain ⟨hL, hA⟩ := h
  simp only [pay_arrears]
  split
  · exact ⟨hL, hA⟩
  · exact ⟨hL, hA⟩
  · split
    · exact ⟨hL, hA⟩
    · split
      · exact ⟨hL, hA⟩
      · split
        · exact ⟨hL, hA⟩
        · exact ⟨hL, nonneg_updateArrears db _ hA (by exact pyMax_zero_nonneg _)⟩
        · split
          · refine ⟨nonneg_updateLoan _ _ hL (by exact pyMax_zero_nonneg _), ?_⟩
            exact nonneg_updateArrears db _ hA (by exact pyMax_zero_nonneg _)
          · refine ⟨nonneg_updateLoan _ _ hL (by exact pyMax_zero_nonneg _), ?_⟩
            exact nonneg_updateArrears db _ hA (by exact pyMax_zero_nonneg _)

/-- update_loan clamps the recomputed balance at zero, so it keeps every
stored remaining amount nonnegative. -/
theorem nonneg_update_loan (db : DB) (loanId : Nat) (payload : LoanUpdate)
    (h : dbNonneg db) : dbNonneg (update_loan db loanId payload).1 := by
  obtain ⟨hL, hA⟩ := h
  obtain ⟨pa, pi, ps, pd⟩ := payload
  cases ps <;> cases pd <;>
    (simp only [update_loan]
     split
     · exact ⟨hL, hA⟩
     · exact ⟨hL, hA⟩
     · split
       · exact ⟨hL, hA⟩
       · exact ⟨nonneg_updateLoan _ _ hL (by exact pyMax_zero_nonneg _), hA⟩)

/-- create_loan with a nonnegative principal stores a nonnegative balance
(the rate is the hardcoded 20, so the stored total is 1.2 times the
principal), keeping every remaining amount nonnegative. -/
theorem nonneg_create_loan (db : DB) (req : LoanCreate) (today : ℤ)
    (h : dbNonneg db) (hamt : 0 ≤ req.amount) :
    dbNonneg (create_loan db req today).1 := by
  obtain ⟨hL, hA⟩ := h
  simp only [create_loan]
  split
  · exact ⟨hL, hA⟩
  · exact ⟨hL, hA⟩
  · split
    · exact ⟨hL, hA⟩
    · exact ⟨hL, hA⟩
    · split
      · exact ⟨hL, hA⟩
      · exact ⟨hL, hA⟩
      · refine ⟨?_, hA⟩
        intro l hl
        rcases List.mem_append.mp hl with h1 | h1
        · exact hL l h1
        · rw [List.mem_singleton.mp h1]
          simp only [mkLoan, Option.getD_some]
          linarith [hamt]

/-- record_payment keeps every stored remaining amount nonnegative: both
the rejection paths (which commit at most the overdue sync) and the accept
path (which stores max(0, remaining - amount)). -/
theorem nonneg_record_payment (db : DB) (payment : PaymentCreate) (today now : ℤ)
    (h : dbNonneg db) : dbNonneg (record_payment db payment today now).1 := by
  obtain ⟨hL, hA⟩ := h
  simp only [record_payment]
  split
  · exact ⟨hL, hA⟩
  · exact ⟨hL, hA⟩
  · split
    · exact ⟨hL, hA⟩
    · split
      · exact ⟨hL, hA⟩
      · exact ⟨hL, hA⟩
      · exact ⟨hL, hA⟩
    · rename_i loan hfl
      have hmem : loan ∈ db.loans := (List.mem_filter.mp (mem_of_scalarOneOrNone hfl)).1
      split
      · exact ⟨hL, hA⟩
      · rename_i db1 loan1 overdueChanged heq1
        obtain ⟨e1, e2, e3, e4, e5⟩ :=
          sync_nonneg db loan today now db1 loan1 overdueChanged heq1 hA
        split
        · split
          · refine ⟨nonneg_updateLoan db1 loan1 ?_ ?_, e4⟩
            · rw [e1]
              exact hL
            · rw [e5]
              exact hL loan hmem
          · exact ⟨hL, hA⟩
        · split
          · exact ⟨hL, hA⟩
          · split
            · exact ⟨hL, hA⟩
            · rename_i db3 loan3 ch3 heq2
              obtain ⟨f1, f2, f3, f4, f5⟩ :=
                sync_nonneg _ _ today now db3 loan3 ch3 heq2 e4
              refine ⟨nonneg_updateLoan db3 loan3 ?_ ?_, f4⟩
              · intro x hx
                rw [f1] at hx
                have hx2 : x ∈ db.loans := by
                  rw [← e1]
                  exact hx
                exact hL x hx2
              · rw [f5]
                split
                · exact pyMax_zero_nonneg _
                · exact pyMax_zero_nonneg _

/-- update_installment_amount clamps the recomputed balance at zero and
keeps every stored remaining amount nonnegative. -/
theorem nonneg_update_installment (db : DB) (instId : Nat) (body : InstallmentUpdate)
    (today now : ℤ) (h : dbNonneg db) :
    dbNonneg (update_installment_amount db instId body today now).1 := by
  obtain ⟨hL, hA⟩ := h
  simp only [update_installment_amount]
  split
  · exact ⟨hL, hA⟩
  · split
    · exact ⟨hL, hA⟩
    · exact ⟨hL, hA⟩
    · split
      · exact ⟨hL, hA⟩
      · exact ⟨hL, hA⟩
      · split
        · exact ⟨hL, hA⟩
        · rename_i db2 loan3 ch heq
          obtain ⟨e1, e2, e3, e4, e5⟩ := sync_nonneg _ _ today now db2 loan3 ch heq hA
          refine ⟨nonneg_updateLoan db2 loan3 ?_ ?_, e4⟩
          · intro x hx
            rw [e1] at hx
            exact hL x hx
          · rw [e5]
            split
            · exact pyMax_zero_nonneg _
            · split
              · exact pyMax_zero_nonneg _
              · exact pyMax_zero_nonneg _

/-- delete_installment clamps the recomputed balance at zero and keeps
every stored remaining amount nonnegative. -/
theorem nonneg_delete_installment (db : DB) (instId : Nat) (today now : ℤ)
    (h : dbNonneg db) : dbNonneg (delete_installment db instId today now).1 := by
  obtain ⟨hL, hA⟩ := h
  simp only [delete_installment]
  split
  · exact ⟨hL, hA⟩
  · exact ⟨hL, hA⟩
  · split
    · exact ⟨hL, hA⟩
    · exact ⟨hL, hA⟩
    · split
      · exact ⟨hL, hA⟩
      · rename_i db2 loan3 ch heq
        obtain ⟨e1, e2, e3, e4, e5⟩ := sync_nonneg _ _ today now db2 loan3 ch heq hA
        refine ⟨nonneg_updateLoan db2 loan3 ?_ ?_, e4⟩
        · intro x hx
          rw [e1] at hx
          exact hL x hx
        · rw [e5]
          split
          · exact pyMax_zero_nonneg _
          · split
            · exact pyMax_zero_nonneg _
            · exact pyMax_zero_nonneg _

/-- C10 (amended): the mutating operations that update an existing
balance - payment recording, arrears payment, arrears clearing, loan
update, installment edit and installment deletion - all clamp the stored
remaining amount at zero with max(0, .), so each of them maps a database
whose loan and arrears remaining amounts are all nonnegative to one where
they all are again.  Loan creation, however, does not clamp: it preserves
the invariant only when the requested principal is nonnegative (see the
counterexample), so the invariant does not hold in every reachable state
as claimed. -/
theorem C10_nonneg_invariant (db : DB) (rowId : Nat) (pay : PaymentCreate)
    (abody : ArrearsPayment) (upd : LoanUpdate) (ibody : InstallmentUpdate)
    (req : LoanCreate) (today now : ℤ) (h : dbNonneg db) :
    dbNonneg (record_payment db pay today now).1 ∧
    dbNonneg (pay_arrears db rowId abody now).1 ∧
    dbNonneg (clear_arrears db rowId now).1 ∧
    dbNonneg (update_loan db rowId upd).1 ∧
    dbNonneg (update_installment_amount db rowId ibody today now).1 ∧
    dbNonneg (delete_installment db rowId today now).1 ∧
    (0 ≤ req.amount → dbNonneg (create_loan db req today).1) :=
  ⟨nonneg_record_payment db pay today now h,
   nonneg_pay_arrears db rowId abody now h,
   nonneg_clear_arrears db rowId now h,
   nonneg_update_loan db rowId upd h,
   nonneg_update_installment db rowId ibody today now h,
   nonneg_delete_installment db rowId today now h,
   fun hamt => nonneg_create_loan db req today h hamt⟩

/-- C10 witness: all seven operations applied to the concrete database
with one past-due ACTIVE loan of balance 100. -/
theorem C10_witness :
    dbNonneg C4db ∧
    (dbNonneg (record_payment C4db ⟨"A1", 5⟩ 0 0).1 ∧
     dbNonneg (pay_arrears C4db 1 ⟨5⟩ 0).1 ∧
     dbNonneg (clear_arrears C4db 1 0).1 ∧
     dbNonneg (update_loan C4db 1 ⟨none, none, none, none⟩).1 ∧
     dbNonneg (update_installment_amount C4db 1 ⟨5⟩ 0 0).1 ∧
     dbNonneg (delete_installment C4db 1 0 0).1 ∧
     (0 ≤ (fixReq 20).amount → dbNonneg (create_loan C4db (fixReq 20) 0).1)) :=
  ⟨by unfold dbNonneg; decide,
   C10_nonneg_invariant C4db 1 ⟨"A1", 5⟩ ⟨5⟩ ⟨none, none, none, none⟩ ⟨5⟩
     (fixReq 20) 0 0 (by unfold dbNonneg; decide)⟩

/-- C10 counterexample: loan creation does not clamp.  Creating a loan
with principal -100 for a customer of the nonnegative database succeeds
and commits a loan whose stored remaining_amount is -120 < 0. -/
theorem C10_counterexample :
    dbNonneg custDB ∧
    (∃ newLoan, (create_loan custDB ⟨"A1", -100, 20, 0, none⟩ 0).2 = Except.ok newLoan ∧
      newLoan.remaining_amount = some (-120)) ∧
    ¬ dbNonneg (create_loan custDB ⟨"A1", -100, 20, 0, none⟩ 0).1 := by
  refine ⟨by unfold dbNonneg; decide,
    ⟨mkLoan 1 ⟨"A1", none, -100, some 20, some 0, none, none⟩ 0, ?_, ?_⟩, ?_⟩
  · norm_num [create_loan, scalarOneOrNone, custDB, emptyDB, fixCustomer, nextId,
      List.filter]
  · norm_num [mkLoan]
  · intro hc
    obtain ⟨hcl, _⟩ := hc
    have hm : mkLoan 1 ⟨"A1", none, -100, some 20, some 0, none, none⟩ 0 ∈
        (create_loan custDB ⟨"A1", -100, 20, 0, none⟩ 0).1.loans := by
      norm_num [create_loan, scalarOneOrNone, custDB, emptyDB, fixCustomer, nextId,
        List.filter]
    have h2 := hcl _ hm
    norm_num [mkLoan, Option.getD_some] at h2

end LoanApp
